import Mathlib

/-!
Garage door monitor: the state-inference engine.

A shallow embedding of `include/DoorMonitor.h` and `src/DoorMonitor.cpp`.

Modelling conventions.

* `float` values are exact rationals (`ℚ`): every comparison of the source is
  kept, rounding, infinities and NaN are outside the model. `abs` is the
  floating-point absolute value.
* `unsigned long` is the 32-bit type of the ESP8266 target: time values are
  natural numbers and the subtraction of two of them wraps modulo `2 ^ 32`
  (`ulongSub`).
* `int consecutiveSensorFailures` is an unbounded `Int`; signed overflow of the
  increment is undefined in C++ and needs more than `2 ^ 31` consecutive
  invalid samples.
* A member function that mutates the object takes the object and returns the
  new one; `updateState` returns the returned `DoorState` together with the
  new object.
-/

namespace GarageDoor

/-- Door state enumeration (`DoorMonitor.h`, lines 7-17). -/
inductive DoorState where
  | DOOR_CLOSED
  | DOOR_OPEN
  | DOOR_STOPPED
  | DOOR_OPENING
  | DOOR_CLOSING
  | DOOR_UNKNOWN
  | DOOR_ERROR_SENSOR_FAILURE
  | DOOR_ERROR_TIMEOUT
  | DOOR_ERROR_STALLED
  deriving DecidableEq

open DoorState

/-- Acceleration data structure (`DoorMonitor.h`, lines 20-25). -/
structure AccelData where
  x : ℚ
  y : ℚ
  z : ℚ
  valid : Bool
  deriving DecidableEq

/-- Door monitor configuration (`DoorMonitor.h`, lines 28-40). -/
structure DoorMonitorConfig where
  accelThreshold : ℚ
  stopTimeout : Nat
  maxOpenTime : Nat
  maxCloseTime : Nat
  stallThreshold : ℚ
  stallTimeout : Nat
  closedPositionY : ℚ
  closedPositionZ : ℚ
  openPositionY : ℚ
  openPositionZ : ℚ
  positionTolerance : ℚ
  deriving DecidableEq

/-- The private data members of `class DoorMonitor` (`DoorMonitor.h`, lines 45-54). -/
structure DoorMonitor where
  currentState : DoorState
  lastMovementDirection : DoorState
  lastAccelY : ℚ
  lastAccelZ : ℚ
  lastMovementTime : Nat
  stateChangeTime : Nat
  lastStallCheckTime : Nat
  config : DoorMonitorConfig
  sensorHealthy : Bool
  consecutiveSensorFailures : Int
  deriving DecidableEq

/-- Number of values of `unsigned long` (32 bits on the target). -/
def ULONG_MODULUS : Nat := 2 ^ 32

/-- The C++ expression `a - b` on two `unsigned long` values: it wraps around. -/
def ulongSub (a b : Nat) : Nat :=
  (a % ULONG_MODULUS + (ULONG_MODULUS - b % ULONG_MODULUS)) % ULONG_MODULUS

/-- `DEFAULT_CONFIG` (`DoorMonitor.h`, lines 91-103). -/
def DEFAULT_CONFIG : DoorMonitorConfig :=
  { accelThreshold := 1 / 2
    stopTimeout := 2000
    maxOpenTime := 30000
    maxCloseTime := 30000
    stallThreshold := 1 / 10
    stallTimeout := 5000
    closedPositionY := 98 / 10
    closedPositionZ := 0
    openPositionY := 0
    openPositionZ := 98 / 10
    positionTolerance := 1 }

/-- `DoorMonitor::DoorMonitor(const DoorMonitorConfig& cfg)` (lines 6-16). -/
def DoorMonitor.new (cfg : DoorMonitorConfig) : DoorMonitor :=
  { currentState := DOOR_UNKNOWN
    lastMovementDirection := DOOR_UNKNOWN
    lastAccelY := 0
    lastAccelZ := 0
    lastMovementTime := 0
    stateChangeTime := 0
    lastStallCheckTime := 0
    config := cfg
    sensorHealthy := true
    consecutiveSensorFailures := 0 }

/-- `DoorMonitor::reset` (lines 18-28). -/
def DoorMonitor.reset (self : DoorMonitor) : DoorMonitor :=
  { self with
    currentState := DOOR_UNKNOWN
    lastMovementDirection := DOOR_UNKNOWN
    lastAccelY := 0
    lastAccelZ := 0
    lastMovementTime := 0
    stateChangeTime := 0
    lastStallCheckTime := 0
    sensorHealthy := true
    consecutiveSensorFailures := 0 }

/-- `DoorMonitor::setConfig` (`DoorMonitor.h`, line 74). -/
def DoorMonitor.setConfig (self : DoorMonitor) (cfg : DoorMonitorConfig) : DoorMonitor :=
  { self with config := cfg }

/-- `DoorMonitor::getTimeInCurrentState` (lines 92-94). -/
def DoorMonitor.getTimeInCurrentState (self : DoorMonitor) (currentTime : Nat) : Nat :=
  ulongSub currentTime self.stateChangeTime

/-- `DoorMonitor::calculateAccelChange` (lines 96-98). -/
def calculateAccelChange (current previous : ℚ) : ℚ :=
  |current - previous|

/-- `DoorMonitor::isMovementSignificant` (lines 100-102). -/
def isMovementSignificant (accelChange threshold : ℚ) : Bool :=
  decide (accelChange > threshold)

/-- `DoorMonitor::hasTimedOut` (lines 104-106). -/
def hasTimedOut (elapsed timeout : Nat) : Bool :=
  decide (elapsed > timeout)

/-- `DoorMonitor::isInClosedPosition` (lines 108-110). -/
def isInClosedPosition (accelY accelZ closedY closedZ tolerance : ℚ) : Bool :=
  decide (|accelY - closedY| ≤ tolerance) && decide (|accelZ - closedZ| ≤ tolerance)

/-- `DoorMonitor::isInOpenPosition` (lines 112-114). -/
def isInOpenPosition (accelY accelZ openY openZ tolerance : ℚ) : Bool :=
  decide (|accelY - openY| ≤ tolerance) && decide (|accelZ - openZ| ≤ tolerance)

/-- `DoorMonitor::determineDirection` (lines 116-130). -/
def determineDirection (currentY previousY currentZ previousZ threshold : ℚ) : DoorState :=
  let yChange := currentY - previousY
  let zChange := currentZ - previousZ
  if yChange > threshold ∨ zChange > threshold then
    DOOR_OPENING
  else if yChange < -threshold ∨ zChange < -threshold then
    DOOR_CLOSING
  else
    DOOR_UNKNOWN

/-- `DoorMonitor::initialize` (lines 30-48). -/
def DoorMonitor.initialize (self : DoorMonitor) (initialAccelY initialAccelZ : ℚ)
    (currentTime : Nat) : DoorMonitor :=
  let s1 : DoorMonitor :=
    { self with
      lastAccelY := initialAccelY
      lastAccelZ := initialAccelZ
      lastMovementTime := currentTime
      stateChangeTime := currentTime
      lastStallCheckTime := currentTime }
  let s2 : DoorMonitor :=
    if isInClosedPosition initialAccelY initialAccelZ s1.config.closedPositionY
        s1.config.closedPositionZ s1.config.positionTolerance then
      { s1 with currentState := DOOR_CLOSED }
    else if isInOpenPosition initialAccelY initialAccelZ s1.config.openPositionY
        s1.config.openPositionZ s1.config.positionTolerance then
      { s1 with currentState := DOOR_OPEN }
    else
      { s1 with currentState := DOOR_STOPPED }
  { s2 with sensorHealthy := true, consecutiveSensorFailures := 0 }

/-- `DoorMonitor::getStateString` (lines 50-62): a `switch` on the current state
with the cases in the order of the source and its `default`. -/
def DoorMonitor.getStateString (self : DoorMonitor) : String :=
  match self.currentState with
  | DOOR_CLOSED => "CLOSED"
  | DOOR_OPEN => "OPEN"
  | DOOR_OPENING => "OPENING"
  | DOOR_CLOSING => "CLOSING"
  | DOOR_STOPPED => "STOPPED"
  | DOOR_ERROR_SENSOR_FAILURE => "ERROR_SENSOR_FAILURE"
  | DOOR_ERROR_TIMEOUT => "ERROR_TIMEOUT"
  | DOOR_ERROR_STALLED => "ERROR_STALLED"
  | _ => "UNKNOWN"

/-- `DoorMonitor::getDetailedStatus` (lines 64-90): a `switch` on the current
state; Stopped, Timeout and Stalled branch on the last movement direction. -/
def DoorMonitor.getDetailedStatus (self : DoorMonitor) : String :=
  match self.currentState with
  | DOOR_CLOSED => "Door is CLOSED (vertical position, Y=9.8, Z=0)"
  | DOOR_OPEN => "Door is OPEN (horizontal position, Y=0, Z=9.8)"
  | DOOR_OPENING => "Door is OPENING (moving toward open position)"
  | DOOR_CLOSING => "Door is CLOSING (moving toward closed position)"
  | DOOR_STOPPED =>
    if self.lastMovementDirection = DOOR_OPENING then
      "Door STOPPED mid-open (was opening, not at full open)"
    else if self.lastMovementDirection = DOOR_CLOSING then
      "Door STOPPED mid-close (was closing, not at full closed)"
    else
      "Door STOPPED (intermediate position)"
  | DOOR_ERROR_SENSOR_FAILURE => "ERROR: Sensor failure detected"
  | DOOR_ERROR_TIMEOUT =>
    if self.lastMovementDirection = DOOR_OPENING then
      "ERROR: Door took too long to open (timeout)"
    else
      "ERROR: Door took too long to close (timeout)"
  | DOOR_ERROR_STALLED =>
    if self.lastMovementDirection = DOOR_OPENING then
      "ERROR: Door stalled while opening"
    else
      "ERROR: Door stalled while closing"
  | _ => "Status UNKNOWN"

/-- Lines 134-147 of `DoorMonitor::updateState`: sensor health tracking. The
first component tells whether the function returns at line 142. -/
def DoorMonitor.checkSensorHealth (self : DoorMonitor) (accel : AccelData)
    (currentTime : Nat) : Bool × DoorMonitor :=
  if accel.valid = false then
    let s1 : DoorMonitor :=
      { self with consecutiveSensorFailures := self.consecutiveSensorFailures + 1 }
    if s1.consecutiveSensorFailures ≥ 5 then
      let s2 : DoorMonitor := { s1 with sensorHealthy := false }
      if s2.currentState ≠ DOOR_ERROR_SENSOR_FAILURE then
        (true,
          { s2 with currentState := DOOR_ERROR_SENSOR_FAILURE, stateChangeTime := currentTime })
      else
        (true, s2)
    else
      (false, s1)
  else
    (false, { self with consecutiveSensorFailures := 0, sensorHealthy := true })

/-- Lines 150-154 of `DoorMonitor::updateState`: recovery from sensor failure. -/
def DoorMonitor.recoverFromSensorFailure (self : DoorMonitor) (currentTime : Nat) :
    DoorMonitor :=
  if self.currentState = DOOR_ERROR_SENSOR_FAILURE ∧ self.sensorHealthy = true then
    { self with currentState := DOOR_UNKNOWN, stateChangeTime := currentTime }
  else
    self

/-- Lines 164-185 of `DoorMonitor::updateState`: the branch taken on significant
movement. -/
def DoorMonitor.significantMovement (self : DoorMonitor) (accelY accelZ : ℚ)
    (currentTime : Nat) : DoorMonitor :=
  let s1 : DoorMonitor :=
    { self with lastMovementTime := currentTime, lastStallCheckTime := currentTime }
  let newDirection :=
    determineDirection accelY s1.lastAccelY accelZ s1.lastAccelZ s1.config.accelThreshold
  if newDirection ≠ DOOR_UNKNOWN ∧ newDirection ≠ s1.currentState then
    if s1.currentState ≠ DOOR_OPENING ∧ s1.currentState ≠ DOOR_CLOSING then
      { s1 with
        currentState := newDirection
        lastMovementDirection := newDirection
        stateChangeTime := currentTime }
    else
      { s1 with
        currentState := newDirection
        lastMovementDirection := newDirection
        stateChangeTime := currentTime }
  else if newDirection ≠ DOOR_UNKNOWN then
    { s1 with lastMovementDirection := newDirection }
  else
    s1

/-- Lines 218-242 of `DoorMonitor::updateState`: the stop check, the store of
the last observed values and the return. `timeSinceMovement` is the local of
line 188. -/
def DoorMonitor.stopCheck (self : DoorMonitor) (accelY accelZ : ℚ)
    (currentTime timeSinceMovement : Nat) : DoorState × DoorMonitor :=
  let s1 : DoorMonitor :=
    if hasTimedOut timeSinceMovement self.config.stopTimeout then
      if self.currentState ≠ DOOR_STOPPED ∧
          self.currentState ≠ DOOR_CLOSED ∧
          self.currentState ≠ DOOR_OPEN ∧
          self.currentState ≠ DOOR_ERROR_SENSOR_FAILURE ∧
          self.currentState ≠ DOOR_ERROR_TIMEOUT ∧
          self.currentState ≠ DOOR_ERROR_STALLED then
        let s : DoorMonitor :=
          if isInClosedPosition accelY accelZ self.config.closedPositionY
              self.config.closedPositionZ self.config.positionTolerance then
            { self with currentState := DOOR_CLOSED }
          else if isInOpenPosition accelY accelZ self.config.openPositionY
              self.config.openPositionZ self.config.positionTolerance then
            { self with currentState := DOOR_OPEN }
          else
            { self with currentState := DOOR_STOPPED }
        { s with stateChangeTime := currentTime }
      else self
    else self
  let s2 : DoorMonitor := { s1 with lastAccelY := accelY, lastAccelZ := accelZ }
  (s2.currentState, s2)

/-- Lines 187-242 of `DoorMonitor::updateState`: the branch taken without
significant movement, with its two early returns (lines 200 and 211). -/
def DoorMonitor.noSignificantMovement (self : DoorMonitor) (accelY accelZ totalChange : ℚ)
    (currentTime : Nat) : DoorState × DoorMonitor :=
  let timeSinceMovement := ulongSub currentTime self.lastMovementTime
  if self.currentState = DOOR_OPENING ∨ self.currentState = DOOR_CLOSING then
    let timeInState := self.getTimeInCurrentState currentTime
    let maxTime :=
      if self.currentState = DOOR_OPENING then self.config.maxOpenTime
      else self.config.maxCloseTime
    if hasTimedOut timeInState maxTime then
      let s : DoorMonitor :=
        { self with
          currentState := DOOR_ERROR_TIMEOUT
          stateChangeTime := currentTime
          lastAccelY := accelY
          lastAccelZ := accelZ }
      (s.currentState, s)
    else if totalChange < self.config.stallThreshold then
      let stallTime := ulongSub currentTime self.lastStallCheckTime
      if hasTimedOut stallTime self.config.stallTimeout then
        let s : DoorMonitor :=
          { self with
            currentState := DOOR_ERROR_STALLED
            stateChangeTime := currentTime
            lastAccelY := accelY
            lastAccelZ := accelZ }
        (s.currentState, s)
      else
        self.stopCheck accelY accelZ currentTime timeSinceMovement
    else
      DoorMonitor.stopCheck { self with lastStallCheckTime := currentTime }
        accelY accelZ currentTime timeSinceMovement
  else
    self.stopCheck accelY accelZ currentTime timeSinceMovement

/-- `DoorMonitor::updateState` (lines 132-243), composed of its blocks. The
result is the returned state and the object after the call. -/
def DoorMonitor.updateState (self : DoorMonitor) (accel : AccelData) (currentTime : Nat) :
    DoorState × DoorMonitor :=
  let health := self.checkSensorHealth accel currentTime
  if health.1 = true then
    (health.2.currentState, health.2)
  else
    let s := health.2.recoverFromSensorFailure currentTime
    let accelY := accel.y
    let accelZ := accel.z
    let yChange := calculateAccelChange accelY s.lastAccelY
    let zChange := calculateAccelChange accelZ s.lastAccelZ
    let totalChange := yChange + zChange
    if isMovementSignificant totalChange s.config.accelThreshold then
      let s1 := s.significantMovement accelY accelZ currentTime
      let s2 : DoorMonitor := { s1 with lastAccelY := accelY, lastAccelZ := accelZ }
      (s2.currentState, s2)
    else
      s.noSignificantMovement accelY accelZ totalChange currentTime

/-- The configuration of the test fixture (`test_door_monitor.cpp`, lines 10-25). -/
def testConfig : DoorMonitorConfig :=
  { DEFAULT_CONFIG with
    accelThreshold := 1 / 2
    stopTimeout := 2000
    maxOpenTime := 10000
    maxCloseTime := 10000
    stallThreshold := 1 / 10
    stallTimeout := 3000
    closedPositionY := 98 / 10
    closedPositionZ := 0
    openPositionY := 0
    openPositionZ := 98 / 10
    positionTolerance := 1 / 2 }

/-- `createAccelData` of the test fixture (`test_door_monitor.cpp`, lines 31-38). -/
def createAccelData (x y z : ℚ) (valid : Bool) : AccelData :=
  { x := x, y := y, z := z, valid := valid }

/-- Feeds a sequence of samples with their times to `updateState`, one call after
the other, and gives the object after the last call. -/
def runUpdates (m : DoorMonitor) (samples : List (AccelData × Nat)) : DoorMonitor :=
  samples.foldl (fun s p => (s.updateState p.1 p.2).2) m

/-- A monitor of the test fixture after `initialize(9.8, 0.0, 1000)`. -/
def closedMonitor : DoorMonitor :=
  DoorMonitor.initialize (DoorMonitor.new testConfig) (98 / 10) 0 1000

/-- A monitor of the test fixture after `initialize(0.0, 9.8, 1000)`. -/
def openMonitor : DoorMonitor :=
  DoorMonitor.initialize (DoorMonitor.new testConfig) 0 (98 / 10) 1000

/-- A monitor of the test fixture after `initialize(5.0, 5.0, 1000)`. -/
def stoppedMonitor : DoorMonitor :=
  DoorMonitor.initialize (DoorMonitor.new testConfig) 5 5 1000

/-- The closed monitor after the sample `(10.5, 0.5)` at time 1100
(`DetectsOpeningMovement`). -/
def openingMonitor : DoorMonitor :=
  (closedMonitor.updateState (createAccelData 0 (105 / 10) (1 / 2) true) 1100).2

/-- The open monitor after the sample `(0.5, 8.5)` at time 1100
(`DetectsClosingMovement`). -/
def closingMonitor : DoorMonitor :=
  (openMonitor.updateState (createAccelData 0 (1 / 2) (85 / 10) true) 1100).2

/-- The opening monitor after the same sample at time 12000
(`DetectsOpeningTimeout`). -/
def timeoutMonitor : DoorMonitor :=
  (openingMonitor.updateState (createAccelData 0 (105 / 10) (1 / 2) true) 12000).2

/-- The invalid sample of `DetectsSensorFailure`. -/
def invalidAccel : AccelData := createAccelData 0 0 0 false

/-- The closed monitor after five invalid samples at 100 ms steps
(`DetectsSensorFailure`). -/
def sensorFailureMonitor : DoorMonitor :=
  runUpdates closedMonitor
    [(invalidAccel, 1000), (invalidAccel, 1100), (invalidAccel, 1200), (invalidAccel, 1300),
      (invalidAccel, 1400)]

/-- The reference definition of the direction, in the words of the
specification (4.1): with `dy = currY - prevY` and `dz = currZ - prevZ`, Opening
if `dy > threshold` or `dz > threshold`; otherwise Closing if `dy < -threshold`
or `dz < -threshold`; otherwise Unknown. -/
def determineDirectionSpec (currY prevY currZ prevZ threshold : ℚ) : DoorState :=
  if currY - prevY > threshold then DOOR_OPENING
  else if currZ - prevZ > threshold then DOOR_OPENING
  else if currY - prevY < -threshold then DOOR_CLOSING
  else if currZ - prevZ < -threshold then DOOR_CLOSING
  else DOOR_UNKNOWN

/-- The configuration of the worked example of the specification (section 8);
the maximum open and close times keep their defaults. -/
def specExampleConfig : DoorMonitorConfig :=
  { DEFAULT_CONFIG with
    accelThreshold := 1 / 2
    stopTimeout := 2000
    stallThreshold := 1 / 10
    stallTimeout := 3000
    closedPositionY := 98 / 10
    closedPositionZ := 0
    openPositionY := 0
    openPositionZ := 98 / 10
    positionTolerance := 1 / 2 }

/-- The monitor of the worked example after `initialize(9.8, 0, 1000)`. -/
def specExampleInitial : DoorMonitor :=
  DoorMonitor.initialize (DoorMonitor.new specExampleConfig) (98 / 10) 0 1000

/-- The monitor of the worked example after the samples `(10.5, 0.5)` at 1100
and at 4000; `x1` and `x2` are the x components, which the example leaves open. -/
def specExampleStopped (x1 x2 : ℚ) : DoorMonitor :=
  runUpdates specExampleInitial
    [(createAccelData x1 (105 / 10) (1 / 2) true, 1100),
      (createAccelData x2 (105 / 10) (1 / 2) true, 4000)]

/-- One call of a mutating member function on a monitor, with its arguments:
`initialize(y, z, t)`, `reset()`, `setConfig(cfg)` or `updateState(accel, t)`. -/
inductive Call where
  | doInitialize (y z : ℚ) (t : Nat)
  | doReset
  | doSetConfig (cfg : DoorMonitorConfig)
  | doUpdateState (accel : AccelData) (t : Nat)

/-- The object after one call. -/
def DoorMonitor.call (self : DoorMonitor) : Call → DoorMonitor
  | Call.doInitialize y z t => DoorMonitor.initialize self y z t
  | Call.doReset => self.reset
  | Call.doSetConfig cfg => self.setConfig cfg
  | Call.doUpdateState accel t => (self.updateState accel t).2

/-- The object after a sequence of calls, made one after the other. -/
def DoorMonitor.run (self : DoorMonitor) (calls : List Call) : DoorMonitor :=
  calls.foldl DoorMonitor.call self

/-- The states reachable from construction (with any configuration) by a
sequence of `initialize`, `reset`, `setConfig` and `updateState` calls. -/
def Reachable (m : DoorMonitor) : Prop :=
  ∃ (cfg : DoorMonitorConfig) (calls : List Call), m = (DoorMonitor.new cfg).run calls

/-- The time arguments of a sequence of calls are representable `unsigned long`
values and do not decrease, starting from the time `t0` of the call before;
`reset` and `setConfig` take no time. -/
def timesNondecreasing (t0 : Nat) : List Call → Prop
  | [] => True
  | Call.doInitialize _ _ t :: rest =>
    t0 ≤ t ∧ t < ULONG_MODULUS ∧ timesNondecreasing t rest
  | Call.doUpdateState _ t :: rest =>
    t0 ≤ t ∧ t < ULONG_MODULUS ∧ timesNondecreasing t rest
  | Call.doReset :: rest => timesNondecreasing t0 rest
  | Call.doSetConfig _ :: rest => timesNondecreasing t0 rest

/-- The time argument of the last call of the sequence that takes one, and `t0`
when there is none. -/
def lastCallTime (t0 : Nat) : List Call → Nat
  | [] => t0
  | Call.doInitialize _ _ t :: rest => lastCallTime t rest
  | Call.doUpdateState _ t :: rest => lastCallTime t rest
  | Call.doReset :: rest => lastCallTime t0 rest
  | Call.doSetConfig _ :: rest => lastCallTime t0 rest

/-- The calls of the test `DetectsOpeningTimeout`. -/
def openingTimeoutCalls : List Call :=
  [Call.doInitialize (98 / 10) 0 1000,
    Call.doUpdateState (createAccelData 0 (105 / 10) (1 / 2) true) 1100,
    Call.doUpdateState (createAccelData 0 (105 / 10) (1 / 2) true) 12000]

/-- The calls of the test `DetectsSensorFailure`. -/
def sensorFailureCalls : List Call :=
  [Call.doInitialize (98 / 10) 0 1000,
    Call.doUpdateState invalidAccel 1000,
    Call.doUpdateState invalidAccel 1100,
    Call.doUpdateState invalidAccel 1200,
    Call.doUpdateState invalidAccel 1300,
    Call.doUpdateState invalidAccel 1400]

/-- The Stopped monitor of the tests after the valid sample `(0.2, 9.9)` at time
1100: it is Opening and its last observed values lie within tolerance of the
open reference `(0.0, 9.8)`. -/
def openingAtOpenMonitor : DoorMonitor :=
  (stoppedMonitor.updateState (createAccelData 0 (2 / 10) (99 / 10) true) 1100).2


end GarageDoor

namespace GarageDoor

open DoorState

/-! ## Unsigned time arithmetic -/

/-- For representable times that do not run backwards the unsigned subtraction
is the difference. -/
theorem ulongSub_eq_sub (a b : Nat) (hb : b ≤ a) (ha : a < ULONG_MODULUS) :
    ulongSub a b = a - b := by
  simp only [ulongSub, ULONG_MODULUS] at *
  omega

/-- The unsigned subtraction wraps around when the second time is the later one. -/
theorem ulongSub_wraps (a b : Nat) (hab : a < b) (hb : b < ULONG_MODULUS) :
    ulongSub a b = ULONG_MODULUS - (b - a) := by
  simp only [ulongSub, ULONG_MODULUS] at *
  omega

/-! ## Classifier lemmas -/

theorem hasTimedOut_iff (elapsed timeout : Nat) :
    hasTimedOut elapsed timeout = true ↔ timeout < elapsed := by
  simp [hasTimedOut]

theorem isMovementSignificant_iff (accelChange threshold : ℚ) :
    isMovementSignificant accelChange threshold = true ↔ threshold < accelChange := by
  simp [isMovementSignificant]

theorem isInClosedPosition_iff (y z refY refZ tol : ℚ) :
    isInClosedPosition y z refY refZ tol = true ↔ |y - refY| ≤ tol ∧ |z - refZ| ≤ tol := by
  simp [isInClosedPosition]

theorem isInOpenPosition_iff (y z refY refZ tol : ℚ) :
    isInOpenPosition y z refY refZ tol = true ↔ |y - refY| ≤ tol ∧ |z - refZ| ≤ tol := by
  simp [isInOpenPosition]

/-- A change above the threshold on one axis makes the total change significant. -/
theorem total_gt_of_axis_gt (dy dz th : ℚ) (h : th < dy ∨ th < dz) : th < |dy| + |dz| := by
  rcases h with h | h
  · have h1 := le_abs_self dy
    have h2 := abs_nonneg dz
    linarith
  · have h1 := le_abs_self dz
    have h2 := abs_nonneg dy
    linarith

/-- A change below minus the threshold on one axis makes the total change significant. -/
theorem total_gt_of_axis_lt_neg (dy dz th : ℚ) (h : dy < -th ∨ dz < -th) :
    th < |dy| + |dz| := by
  rcases h with h | h
  · have h1 := neg_abs_le dy
    have h2 := abs_nonneg dz
    linarith
  · have h1 := neg_abs_le dz
    have h2 := abs_nonneg dy
    linarith

theorem determineDirection_opening (cy py cz pz th : ℚ) (h : th < cy - py ∨ th < cz - pz) :
    determineDirection cy py cz pz th = DOOR_OPENING := by
  simp only [determineDirection, gt_iff_lt]
  rw [if_pos h]

theorem determineDirection_closing (cy py cz pz th : ℚ)
    (hno : ¬ (th < cy - py ∨ th < cz - pz)) (h : cy - py < -th ∨ cz - pz < -th) :
    determineDirection cy py cz pz th = DOOR_CLOSING := by
  simp only [determineDirection, gt_iff_lt]
  rw [if_neg hno, if_pos h]

/-- The direction is never a resting or fault state. -/
theorem determineDirection_cases (cy py cz pz th : ℚ) :
    determineDirection cy py cz pz th = DOOR_OPENING ∨
      determineDirection cy py cz pz th = DOOR_CLOSING ∨
      determineDirection cy py cz pz th = DOOR_UNKNOWN := by
  simp only [determineDirection]
  split_ifs <;> simp

/-! ## The blocks of `updateState` -/

theorem checkSensorHealth_valid (m : DoorMonitor) (a : AccelData) (t : Nat)
    (hv : a.valid = true) :
    m.checkSensorHealth a t =
      (false, { m with consecutiveSensorFailures := 0, sensorHealthy := true }) := by
  simp [DoorMonitor.checkSensorHealth, hv]

theorem checkSensorHealth_invalid_lt (m : DoorMonitor) (a : AccelData) (t : Nat)
    (hv : a.valid = false) (hc : m.consecutiveSensorFailures + 1 < 5) :
    m.checkSensorHealth a t =
      (false, { m with consecutiveSensorFailures := m.consecutiveSensorFailures + 1 }) := by
  have h : ¬ (5 ≤ m.consecutiveSensorFailures + 1) := not_le.mpr hc
  simp [DoorMonitor.checkSensorHealth, hv, h]

theorem checkSensorHealth_invalid_ge (m : DoorMonitor) (a : AccelData) (t : Nat)
    (hv : a.valid = false) (hc : 5 ≤ m.consecutiveSensorFailures + 1) :
    m.checkSensorHealth a t =
      (true,
        { m with
          currentState := DOOR_ERROR_SENSOR_FAILURE
          stateChangeTime :=
            if m.currentState = DOOR_ERROR_SENSOR_FAILURE then m.stateChangeTime else t
          sensorHealthy := false
          consecutiveSensorFailures := m.consecutiveSensorFailures + 1 }) := by
  by_cases hs : m.currentState = DOOR_ERROR_SENSOR_FAILURE <;>
    simp [DoorMonitor.checkSensorHealth, hv, hc, hs]

/-- The recovery block as a record update. -/
theorem recoverFromSensorFailure_eq (m : DoorMonitor) (t : Nat) :
    m.recoverFromSensorFailure t =
      { m with
        currentState :=
          if m.currentState = DOOR_ERROR_SENSOR_FAILURE ∧ m.sensorHealthy = true then
            DOOR_UNKNOWN
          else m.currentState
        stateChangeTime :=
          if m.currentState = DOOR_ERROR_SENSOR_FAILURE ∧ m.sensorHealthy = true then t
          else m.stateChangeTime } := by
  simp only [DoorMonitor.recoverFromSensorFailure]
  split_ifs <;> rfl

/-- The significant-movement block as a record update. -/
theorem significantMovement_eq (m : DoorMonitor) (y z : ℚ) (t : Nat) :
    m.significantMovement y z t =
      { m with
        currentState :=
          if determineDirection y m.lastAccelY z m.lastAccelZ m.config.accelThreshold
              ≠ DOOR_UNKNOWN then
            determineDirection y m.lastAccelY z m.lastAccelZ m.config.accelThreshold
          else m.currentState
        lastMovementDirection :=
          if determineDirection y m.lastAccelY z m.lastAccelZ m.config.accelThreshold
              ≠ DOOR_UNKNOWN then
            determineDirection y m.lastAccelY z m.lastAccelZ m.config.accelThreshold
          else m.lastMovementDirection
        stateChangeTime :=
          if determineDirection y m.lastAccelY z m.lastAccelZ m.config.accelThreshold
                ≠ DOOR_UNKNOWN ∧
              determineDirection y m.lastAccelY z m.lastAccelZ m.config.accelThreshold
                ≠ m.currentState then t
          else m.stateChangeTime
        lastMovementTime := t
        lastStallCheckTime := t } := by
  simp only [DoorMonitor.significantMovement]
  split_ifs <;> simp_all

/-- The state after the significant-movement block. -/
theorem significantMovement_currentState (m : DoorMonitor) (y z : ℚ) (t : Nat) :
    (m.significantMovement y z t).currentState =
      (if determineDirection y m.lastAccelY z m.lastAccelZ m.config.accelThreshold
          ≠ DOOR_UNKNOWN then
        determineDirection y m.lastAccelY z m.lastAccelZ m.config.accelThreshold
      else m.currentState) := by
  rw [significantMovement_eq]

/-- The stop check as a record update. -/
theorem stopCheck_eq (m : DoorMonitor) (y z : ℚ) (t ts : Nat) :
    (m.stopCheck y z t ts).2 =
      { m with
        currentState :=
          if m.config.stopTimeout < ts ∧
              (m.currentState = DOOR_OPENING ∨ m.currentState = DOOR_CLOSING ∨
                m.currentState = DOOR_UNKNOWN) then
            (if |y - m.config.closedPositionY| ≤ m.config.positionTolerance ∧
                |z - m.config.closedPositionZ| ≤ m.config.positionTolerance then DOOR_CLOSED
             else if |y - m.config.openPositionY| ≤ m.config.positionTolerance ∧
                |z - m.config.openPositionZ| ≤ m.config.positionTolerance then DOOR_OPEN
             else DOOR_STOPPED)
          else m.currentState
        stateChangeTime :=
          if m.config.stopTimeout < ts ∧
              (m.currentState = DOOR_OPENING ∨ m.currentState = DOOR_CLOSING ∨
                m.currentState = DOOR_UNKNOWN) then t
          else m.stateChangeTime
        lastAccelY := y
        lastAccelZ := z } := by
  obtain ⟨cs, d, ly, lz, lm, sc, ls, cfg, h, c⟩ := m
  cases cs <;>
    simp only [DoorMonitor.stopCheck, hasTimedOut_iff, isInClosedPosition_iff,
      isInOpenPosition_iff] <;>
    split_ifs <;> simp_all

/-- The state after the stop check. -/
theorem stopCheck_currentState (m : DoorMonitor) (y z : ℚ) (t ts : Nat) :
    (m.stopCheck y z t ts).2.currentState =
      (if m.config.stopTimeout < ts ∧
          (m.currentState = DOOR_OPENING ∨ m.currentState = DOOR_CLOSING ∨
            m.currentState = DOOR_UNKNOWN) then
        (if |y - m.config.closedPositionY| ≤ m.config.positionTolerance ∧
            |z - m.config.closedPositionZ| ≤ m.config.positionTolerance then DOOR_CLOSED
         else if |y - m.config.openPositionY| ≤ m.config.positionTolerance ∧
            |z - m.config.openPositionZ| ≤ m.config.positionTolerance then DOOR_OPEN
         else DOOR_STOPPED)
      else m.currentState) := by
  rw [stopCheck_eq]

/-- Every path of `updateState` returns the state it leaves in the object. -/
theorem stopCheck_fst (m : DoorMonitor) (y z : ℚ) (t ts : Nat) :
    (m.stopCheck y z t ts).1 = (m.stopCheck y z t ts).2.currentState := rfl

theorem noSignificantMovement_fst (m : DoorMonitor) (y z c : ℚ) (t : Nat) :
    (m.noSignificantMovement y z c t).1 = (m.noSignificantMovement y z c t).2.currentState := by
  simp only [DoorMonitor.noSignificantMovement]
  split_ifs <;> rfl

theorem updateState_fst (m : DoorMonitor) (a : AccelData) (t : Nat) :
    (m.updateState a t).1 = (m.updateState a t).2.currentState := by
  simp only [DoorMonitor.updateState]
  split_ifs
  · rfl
  · rfl
  · exact noSignificantMovement_fst _ _ _ _ _

/-- The call when the sensor check returns early. -/
theorem updateState_of_return (m : DoorMonitor) (a : AccelData) (t : Nat) (s : DoorMonitor)
    (h : m.checkSensorHealth a t = (true, s)) :
    m.updateState a t = (s.currentState, s) := by
  simp [DoorMonitor.updateState, h]

/-- The call when the sensor check goes on, on significant movement. -/
theorem updateState_of_movement (m : DoorMonitor) (a : AccelData) (t : Nat) (s : DoorMonitor)
    (h : m.checkSensorHealth a t = (false, s))
    (hsig : (s.recoverFromSensorFailure t).config.accelThreshold <
      |a.y - (s.recoverFromSensorFailure t).lastAccelY| +
        |a.z - (s.recoverFromSensorFailure t).lastAccelZ|) :
    (m.updateState a t).2 =
      { (s.recoverFromSensorFailure t).significantMovement a.y a.z t with
        lastAccelY := a.y, lastAccelZ := a.z } := by
  simp [DoorMonitor.updateState, h, calculateAccelChange, isMovementSignificant_iff, hsig]

/-- The call when the sensor check goes on, without significant movement. -/
theorem updateState_of_no_movement (m : DoorMonitor) (a : AccelData) (t : Nat)
    (s : DoorMonitor) (h : m.checkSensorHealth a t = (false, s))
    (hsig : ¬ (s.recoverFromSensorFailure t).config.accelThreshold <
      |a.y - (s.recoverFromSensorFailure t).lastAccelY| +
        |a.z - (s.recoverFromSensorFailure t).lastAccelZ|) :
    m.updateState a t =
      (s.recoverFromSensorFailure t).noSignificantMovement a.y a.z
        (|a.y - (s.recoverFromSensorFailure t).lastAccelY| +
          |a.z - (s.recoverFromSensorFailure t).lastAccelZ|) t := by
  simp [DoorMonitor.updateState, h, calculateAccelChange, isMovementSignificant_iff, hsig]

/-- When the sensor check does not return early, it changes the counter and the
health flag only. -/
theorem checkSensorHealth_continue (m : DoorMonitor) (a : AccelData) (t : Nat)
    (hf : ¬ (a.valid = false ∧ m.consecutiveSensorFailures + 1 ≥ 5)) :
    ∃ c h, m.checkSensorHealth a t =
      (false, { m with consecutiveSensorFailures := c, sensorHealthy := h }) := by
  cases hv : a.valid
  · have hc : m.consecutiveSensorFailures + 1 < 5 := by
      by_contra hge
      exact hf ⟨hv, not_lt.mp hge⟩
    exact ⟨m.consecutiveSensorFailures + 1, m.sensorHealthy,
      checkSensorHealth_invalid_lt m a t hv hc⟩
  · exact ⟨0, true, checkSensorHealth_valid m a t hv⟩

theorem stopCheck_counter (m : DoorMonitor) (y z : ℚ) (t ts : Nat) :
    (m.stopCheck y z t ts).2.consecutiveSensorFailures = m.consecutiveSensorFailures := by
  rw [stopCheck_eq]

theorem noSignificantMovement_counter (m : DoorMonitor) (y z c : ℚ) (t : Nat) :
    (m.noSignificantMovement y z c t).2.consecutiveSensorFailures =
      m.consecutiveSensorFailures := by
  simp only [DoorMonitor.noSignificantMovement]
  split_ifs <;> first | rfl | exact stopCheck_counter _ _ _ _ _

/-- Every call with an invalid sample adds one to the counter. -/
theorem updateState_invalid_counter (m : DoorMonitor) (a : AccelData) (t : Nat)
    (hv : a.valid = false) :
    (m.updateState a t).2.consecutiveSensorFailures = m.consecutiveSensorFailures + 1 := by
  by_cases hc : 5 ≤ m.consecutiveSensorFailures + 1
  · rw [updateState_of_return m a t _ (checkSensorHealth_invalid_ge m a t hv hc)]
  · have hh := checkSensorHealth_invalid_lt m a t hv (not_le.mp hc)
    by_cases hsig :
      ((({ m with consecutiveSensorFailures := m.consecutiveSensorFailures + 1 } :
          DoorMonitor).recoverFromSensorFailure t).config.accelThreshold <
        |a.y - (({ m with consecutiveSensorFailures := m.consecutiveSensorFailures + 1 } :
          DoorMonitor).recoverFromSensorFailure t).lastAccelY| +
        |a.z - (({ m with consecutiveSensorFailures := m.consecutiveSensorFailures + 1 } :
          DoorMonitor).recoverFromSensorFailure t).lastAccelZ|)
    · rw [updateState_of_movement m a t _ hh hsig, significantMovement_eq,
        recoverFromSensorFailure_eq]
    · rw [updateState_of_no_movement m a t _ hh hsig, noSignificantMovement_counter,
        recoverFromSensorFailure_eq]

/-- An invalid sample that brings the counter to 5 or more gives SensorFailure. -/
theorem updateState_invalid_failure (m : DoorMonitor) (a : AccelData) (t : Nat)
    (hv : a.valid = false) (hc : 4 ≤ m.consecutiveSensorFailures) :
    (m.updateState a t).1 = DOOR_ERROR_SENSOR_FAILURE ∧
      (m.updateState a t).2.currentState = DOOR_ERROR_SENSOR_FAILURE ∧
      (m.updateState a t).2.sensorHealthy = false := by
  have h5 : 5 ≤ m.consecutiveSensorFailures + 1 := by omega
  rw [updateState_of_return m a t _ (checkSensorHealth_invalid_ge m a t hv h5)]
  exact ⟨rfl, rfl, rfl⟩

/-- Without significant movement, when neither the timeout nor the stall
condition holds, the state and the state-change timestamp are those of the stop
check on the time since the last movement. -/
theorem noSignificantMovement_of_no_fault (m : DoorMonitor) (y z c : ℚ) (t : Nat)
    (hT : ¬ ((m.currentState = DOOR_OPENING ∧
          m.config.maxOpenTime < ulongSub t m.stateChangeTime) ∨
        (m.currentState = DOOR_CLOSING ∧
          m.config.maxCloseTime < ulongSub t m.stateChangeTime)))
    (hS : ¬ ((m.currentState = DOOR_OPENING ∨ m.currentState = DOOR_CLOSING) ∧
        c < m.config.stallThreshold ∧
        m.config.stallTimeout < ulongSub t m.lastStallCheckTime)) :
    (m.noSignificantMovement y z c t).2.currentState =
        (m.stopCheck y z t (ulongSub t m.lastMovementTime)).2.currentState ∧
      (m.noSignificantMovement y z c t).2.stateChangeTime =
        (m.stopCheck y z t (ulongSub t m.lastMovementTime)).2.stateChangeTime := by
  by_cases hmv : m.currentState = DOOR_OPENING ∨ m.currentState = DOOR_CLOSING
  · have hT1 : ¬ (if m.currentState = DOOR_OPENING then m.config.maxOpenTime
        else m.config.maxCloseTime) < ulongSub t m.stateChangeTime := by
      rcases hmv with h | h
      · rw [if_pos h]
        exact fun hlt => hT (Or.inl ⟨h, hlt⟩)
      · rw [if_neg (by rw [h]; decide)]
        exact fun hlt => hT (Or.inr ⟨h, hlt⟩)
    by_cases hst : c < m.config.stallThreshold
    · have hS1 : ¬ m.config.stallTimeout < ulongSub t m.lastStallCheckTime :=
        fun h => hS ⟨hmv, hst, h⟩
      simp only [DoorMonitor.noSignificantMovement, DoorMonitor.getTimeInCurrentState,
        hasTimedOut_iff, if_pos hmv, if_neg hT1, if_pos hst, if_neg hS1, and_self]
    · simp only [DoorMonitor.noSignificantMovement, DoorMonitor.getTimeInCurrentState,
        hasTimedOut_iff, if_pos hmv, if_neg hT1, if_neg hst, stopCheck_eq, and_self]
  · simp only [DoorMonitor.noSignificantMovement, if_neg hmv, and_self]

/-! ## The claims -/

/-- C1 (counterexample). The monitor of `DetectsOpeningTimeout` is in Timeout; a
valid sample with a y-change of -1.0 takes it to Closing, and after four invalid
samples at rest a fifth takes it to SensorFailure. -/
theorem C1_timeout_not_terminal :
    timeoutMonitor.currentState = DOOR_ERROR_TIMEOUT ∧
      (timeoutMonitor.updateState (createAccelData 0 (95 / 10) (1 / 2) true) 12100).2.currentState
        = DOOR_CLOSING ∧
      (runUpdates timeoutMonitor
          [(createAccelData 0 (105 / 10) (1 / 2) false, 12100),
            (createAccelData 0 (105 / 10) (1 / 2) false, 12200),
            (createAccelData 0 (105 / 10) (1 / 2) false, 12300),
            (createAccelData 0 (105 / 10) (1 / 2) false, 12400)]).currentState
        = DOOR_ERROR_TIMEOUT ∧
      ((runUpdates timeoutMonitor
          [(createAccelData 0 (105 / 10) (1 / 2) false, 12100),
            (createAccelData 0 (105 / 10) (1 / 2) false, 12200),
            (createAccelData 0 (105 / 10) (1 / 2) false, 12300),
            (createAccelData 0 (105 / 10) (1 / 2) false, 12400)]).updateState
          (createAccelData 0 (105 / 10) (1 / 2) false) 12500).2.currentState
        = DOOR_ERROR_SENSOR_FAILURE := by
  decide!

/-- C1 (amended). From Timeout or Stalled, `updateState` leaves the current
state unchanged except in two cases: an invalid sample that brings the counter
to 5 or more gives SensorFailure, and otherwise a total change above
`accelThreshold` with a determined direction gives that direction. `reset` gives
Unknown and `initialize` gives Closed, Open or Stopped, so both leave the fault
states as well. -/
theorem C1_fault_state_exits (m : DoorMonitor) (a : AccelData) (t : Nat) (y z : ℚ) (t0 : Nat)
    (hs : m.currentState = DOOR_ERROR_TIMEOUT ∨ m.currentState = DOOR_ERROR_STALLED) :
    (m.updateState a t).2.currentState =
        (if a.valid = false ∧ m.consecutiveSensorFailures + 1 ≥ 5 then
          DOOR_ERROR_SENSOR_FAILURE
        else if m.config.accelThreshold < |a.y - m.lastAccelY| + |a.z - m.lastAccelZ| ∧
            determineDirection a.y m.lastAccelY a.z m.lastAccelZ m.config.accelThreshold
              ≠ DOOR_UNKNOWN then
          determineDirection a.y m.lastAccelY a.z m.lastAccelZ m.config.accelThreshold
        else m.currentState) ∧
      m.reset.currentState = DOOR_UNKNOWN ∧
      (( m.initialize y z t0).currentState = DOOR_CLOSED ∨
        ( m.initialize y z t0).currentState = DOOR_OPEN ∨
        ( m.initialize y z t0).currentState = DOOR_STOPPED) := by
  refine ⟨?_, rfl, ?_⟩
  · by_cases hf : a.valid = false ∧ m.consecutiveSensorFailures + 1 ≥ 5
    · have h := updateState_invalid_failure m a t hf.1 (by omega)
      rw [if_pos hf]
      exact h.2.1
    · rw [if_neg hf]
      obtain ⟨c, h, hh⟩ := checkSensorHealth_continue m a t hf
      have hne : m.currentState ≠ DOOR_ERROR_SENSOR_FAILURE := by
        rcases hs with hs | hs <;> simp [hs]
      have hno : ¬ (m.currentState = DOOR_OPENING ∨ m.currentState = DOOR_CLOSING) := by
        rcases hs with hs | hs <;> simp [hs]
      have hstop : ¬ (m.currentState = DOOR_OPENING ∨ m.currentState = DOOR_CLOSING ∨
          m.currentState = DOOR_UNKNOWN) := by
        rcases hs with hs | hs <;> simp [hs]
      by_cases hsig : m.config.accelThreshold < |a.y - m.lastAccelY| + |a.z - m.lastAccelZ|
      · simp [DoorMonitor.updateState, hh, DoorMonitor.recoverFromSensorFailure, hne,
          calculateAccelChange, isMovementSignificant_iff, hsig,
          significantMovement_currentState]
      · simp [DoorMonitor.updateState, hh, DoorMonitor.recoverFromSensorFailure, hne,
          calculateAccelChange, isMovementSignificant_iff, hsig,
          DoorMonitor.noSignificantMovement, hno, stopCheck_currentState, hstop]
  · simp only [ DoorMonitor.initialize]
    split_ifs <;> simp

/-- C1 (witness). The amended statement at the Timeout monitor of
`DetectsOpeningTimeout` with a sample at rest. -/
theorem C1_fault_state_exits_witness :
    (timeoutMonitor.updateState (createAccelData 0 (105 / 10) (1 / 2) true) 12100).2.currentState
      = DOOR_ERROR_TIMEOUT := by
  have h := (C1_fault_state_exits timeoutMonitor (createAccelData 0 (105 / 10) (1 / 2) true)
    12100 0 0 0 (Or.inl (by decide!))).1
  rw [h]
  decide!

/-- C2. From any state with a non-negative counter, five consecutive calls with
invalid samples (any y, z and times) end in SensorFailure: the fifth call
returns SensorFailure, leaves it as the current state and clears the health
flag. -/
theorem C2_five_invalid_samples_give_sensor_failure (m : DoorMonitor)
    (a1 a2 a3 a4 a5 : AccelData) (t1 t2 t3 t4 t5 : Nat)
    (hc : 0 ≤ m.consecutiveSensorFailures)
    (h1 : a1.valid = false) (h2 : a2.valid = false) (h3 : a3.valid = false)
    (h4 : a4.valid = false) (h5 : a5.valid = false) :
    ((runUpdates m [(a1, t1), (a2, t2), (a3, t3), (a4, t4)]).updateState a5 t5).1
        = DOOR_ERROR_SENSOR_FAILURE ∧
      ((runUpdates m [(a1, t1), (a2, t2), (a3, t3), (a4, t4)]).updateState a5 t5).2.currentState
        = DOOR_ERROR_SENSOR_FAILURE ∧
      ((runUpdates m [(a1, t1), (a2, t2), (a3, t3), (a4, t4)]).updateState a5 t5).2.sensorHealthy
        = false := by
  have k1 := updateState_invalid_counter m a1 t1 h1
  have k2 := updateState_invalid_counter (m.updateState a1 t1).2 a2 t2 h2
  have k3 := updateState_invalid_counter ((m.updateState a1 t1).2.updateState a2 t2).2 a3 t3 h3
  have k4 := updateState_invalid_counter
    (((m.updateState a1 t1).2.updateState a2 t2).2.updateState a3 t3).2 a4 t4 h4
  apply updateState_invalid_failure _ _ _ h5
  simp only [runUpdates, List.foldl]
  omega

/-- C2 (witness). The run of `DetectsSensorFailure`: five invalid samples at 100 ms
steps after `initialize(9.8, 0.0, 1000)`. -/
theorem C2_five_invalid_samples_witness :
    ((runUpdates closedMonitor
          [(invalidAccel, 1000), (invalidAccel, 1100), (invalidAccel, 1200),
            (invalidAccel, 1300)]).updateState invalidAccel 1400).1
        = DOOR_ERROR_SENSOR_FAILURE ∧
      ((runUpdates closedMonitor
          [(invalidAccel, 1000), (invalidAccel, 1100), (invalidAccel, 1200),
            (invalidAccel, 1300)]).updateState invalidAccel 1400).2.currentState
        = DOOR_ERROR_SENSOR_FAILURE ∧
      ((runUpdates closedMonitor
          [(invalidAccel, 1000), (invalidAccel, 1100), (invalidAccel, 1200),
            (invalidAccel, 1300)]).updateState invalidAccel 1400).2.sensorHealthy
        = false :=
  C2_five_invalid_samples_give_sensor_failure closedMonitor invalidAccel invalidAccel
    invalidAccel invalidAccel invalidAccel 1000 1100 1200 1300 1400 (by decide!) rfl rfl rfl
    rfl rfl

/-- C3 (counterexample). The run of `RecoverFromSensorFailure`: the monitor is in
SensorFailure with last observed values (0, 0); the valid sample (9.8, 0.0) is a
significant movement with a y-change above the threshold, and the call returns
Opening, not Unknown. -/
theorem C3_recovery_returns_opening :
    sensorFailureMonitor.currentState = DOOR_ERROR_SENSOR_FAILURE ∧
      (sensorFailureMonitor.updateState (createAccelData 0 (98 / 10) 0 true) 2000).1
        = DOOR_OPENING ∧
      (sensorFailureMonitor.updateState (createAccelData 0 (98 / 10) 0 true)
        2000).2.currentState = DOOR_OPENING := by
  decide!

/-- C3 (amended). From SensorFailure a valid sample clears the counter and
restores Unknown, and the same call goes on to classify the sample from Unknown:
the returned state is the current state afterwards; it is the determined
direction (Opening, Closing or Unknown) when the total change is above
`accelThreshold`; otherwise it is Closed, Open or Stopped by position when the
time since the last movement is above `stopTimeout`, and Unknown when it is not. -/
theorem C3_recovery_then_classification (m : DoorMonitor) (a : AccelData) (t : Nat)
    (hs : m.currentState = DOOR_ERROR_SENSOR_FAILURE) (hv : a.valid = true) :
    (m.updateState a t).2.consecutiveSensorFailures = 0 ∧
      (m.updateState a t).1 = (m.updateState a t).2.currentState ∧
      (m.updateState a t).2.currentState =
        (if m.config.accelThreshold < |a.y - m.lastAccelY| + |a.z - m.lastAccelZ| then
          determineDirection a.y m.lastAccelY a.z m.lastAccelZ m.config.accelThreshold
        else if m.config.stopTimeout < ulongSub t m.lastMovementTime then
          (if |a.y - m.config.closedPositionY| ≤ m.config.positionTolerance ∧
              |a.z - m.config.closedPositionZ| ≤ m.config.positionTolerance then DOOR_CLOSED
           else if |a.y - m.config.openPositionY| ≤ m.config.positionTolerance ∧
              |a.z - m.config.openPositionZ| ≤ m.config.positionTolerance then DOOR_OPEN
           else DOOR_STOPPED)
        else DOOR_UNKNOWN) := by
  have hh := checkSensorHealth_valid m a t hv
  refine ⟨?_, updateState_fst m a t, ?_⟩
  · by_cases hsig : m.config.accelThreshold < |a.y - m.lastAccelY| + |a.z - m.lastAccelZ|
    · rw [updateState_of_movement m a t _ hh (by simpa [recoverFromSensorFailure_eq] using hsig),
        significantMovement_eq, recoverFromSensorFailure_eq]
    · rw [updateState_of_no_movement m a t _ hh
        (by simpa [recoverFromSensorFailure_eq] using hsig), noSignificantMovement_counter,
        recoverFromSensorFailure_eq]
  · by_cases hsig : m.config.accelThreshold < |a.y - m.lastAccelY| + |a.z - m.lastAccelZ|
    · rw [updateState_of_movement m a t _ hh (by simpa [recoverFromSensorFailure_eq] using hsig),
        significantMovement_eq, recoverFromSensorFailure_eq]
      simp only [hs, hsig, true_and, if_true]
      split_ifs with hd
      · rfl
      · exact (not_not.mp hd).symm
    · rw [updateState_of_no_movement m a t _ hh
        (by simpa [recoverFromSensorFailure_eq] using hsig)]
      simp [recoverFromSensorFailure_eq, hs, hsig, DoorMonitor.noSignificantMovement,
        stopCheck_currentState]

/-- C3 (witness). The amended statement at the run of `RecoverFromSensorFailure`. -/
theorem C3_recovery_then_classification_witness :
    (sensorFailureMonitor.updateState (createAccelData 0 (98 / 10) 0 true)
        2000).2.consecutiveSensorFailures = 0 ∧
      (sensorFailureMonitor.updateState (createAccelData 0 (98 / 10) 0 true) 2000).1
        = DOOR_OPENING := by
  have h := C3_recovery_then_classification sensorFailureMonitor
    (createAccelData 0 (98 / 10) 0 true) 2000 (by decide!) rfl
  refine ⟨h.1, ?_⟩
  rw [h.2.1, h.2.2]
  decide!

/-- C4. After `initialize(y, z, t)` the state is Closed when (y, z) is within
`positionTolerance` of the closed reference on both axes, otherwise Open when it
is within tolerance of the open reference, otherwise Stopped, whatever the state
before; the health flag is true. -/
theorem C4_initialize_resolves_position (m : DoorMonitor) (y z : ℚ) (t : Nat) :
    ( m.initialize y z t).currentState =
        (if |y - m.config.closedPositionY| ≤ m.config.positionTolerance ∧
            |z - m.config.closedPositionZ| ≤ m.config.positionTolerance then DOOR_CLOSED
         else if |y - m.config.openPositionY| ≤ m.config.positionTolerance ∧
            |z - m.config.openPositionZ| ≤ m.config.positionTolerance then DOOR_OPEN
         else DOOR_STOPPED) ∧
      ( m.initialize y z t).sensorHealthy = true := by
  refine ⟨?_, ?_⟩
  · simp only [ DoorMonitor.initialize, isInClosedPosition_iff, isInOpenPosition_iff]
    split_ifs <;> rfl
  · simp only [ DoorMonitor.initialize]

/-- C5. In Opening (resp. Closing), a valid sample whose total change is not
above `accelThreshold`, at a time when `t - stateChangeTime` (the unsigned
subtraction of the source) is above `maxOpenTime` (resp. `maxCloseTime`), makes
`updateState` return Timeout and sets the state-change timestamp to `t`. -/
theorem C5_timeout_while_moving (m : DoorMonitor) (a : AccelData) (t : Nat)
    (hv : a.valid = true)
    (hmove : |a.y - m.lastAccelY| + |a.z - m.lastAccelZ| ≤ m.config.accelThreshold)
    (helapsed :
      (m.currentState = DOOR_OPENING ∧ m.config.maxOpenTime < ulongSub t m.stateChangeTime) ∨
      (m.currentState = DOOR_CLOSING ∧
        m.config.maxCloseTime < ulongSub t m.stateChangeTime)) :
    (m.updateState a t).1 = DOOR_ERROR_TIMEOUT ∧
      (m.updateState a t).2.currentState = DOOR_ERROR_TIMEOUT ∧
      (m.updateState a t).2.stateChangeTime = t := by
  have hns : ¬ (m.config.accelThreshold < |a.y - m.lastAccelY| + |a.z - m.lastAccelZ|) :=
    not_lt.mpr hmove
  rcases helapsed with ⟨hs, he⟩ | ⟨hs, he⟩ <;>
    simp [DoorMonitor.updateState, checkSensorHealth_valid m a t hv,
      recoverFromSensorFailure_eq, hs, calculateAccelChange, isMovementSignificant_iff, hns,
      DoorMonitor.noSignificantMovement, DoorMonitor.getTimeInCurrentState, hasTimedOut_iff,
      he]

/-- C5 (witness). The run of `DetectsOpeningTimeout`: Opening since 1100, the same
sample again at 12000 with `maxOpenTime` 10000. -/
theorem C5_timeout_while_moving_witness :
    (openingMonitor.updateState (createAccelData 0 (105 / 10) (1 / 2) true) 12000).1
        = DOOR_ERROR_TIMEOUT ∧
      (openingMonitor.updateState (createAccelData 0 (105 / 10) (1 / 2) true)
        12000).2.currentState = DOOR_ERROR_TIMEOUT ∧
      (openingMonitor.updateState (createAccelData 0 (105 / 10) (1 / 2) true)
        12000).2.stateChangeTime = 12000 :=
  C5_timeout_while_moving openingMonitor (createAccelData 0 (105 / 10) (1 / 2) true) 12000
    rfl (by decide!) (Or.inl (by decide!))

/-- C6. In Opening or Closing, a valid sample whose total change is below
`stallThreshold` and not above `accelThreshold`, when the time in state is not
above the applicable maximum and `t - lastStallCheckTime` is above
`stallTimeout`, makes `updateState` return Stalled and sets the state-change
timestamp to `t`. -/
theorem C6_stall_while_moving (m : DoorMonitor) (a : AccelData) (t : Nat)
    (hv : a.valid = true)
    (hstall : |a.y - m.lastAccelY| + |a.z - m.lastAccelZ| < m.config.stallThreshold)
    (hmove : |a.y - m.lastAccelY| + |a.z - m.lastAccelZ| ≤ m.config.accelThreshold)
    (hs :
      (m.currentState = DOOR_OPENING ∧ ulongSub t m.stateChangeTime ≤ m.config.maxOpenTime) ∨
      (m.currentState = DOOR_CLOSING ∧
        ulongSub t m.stateChangeTime ≤ m.config.maxCloseTime))
    (hwindow : m.config.stallTimeout < ulongSub t m.lastStallCheckTime) :
    (m.updateState a t).1 = DOOR_ERROR_STALLED ∧
      (m.updateState a t).2.currentState = DOOR_ERROR_STALLED ∧
      (m.updateState a t).2.stateChangeTime = t := by
  have hns : ¬ (m.config.accelThreshold < |a.y - m.lastAccelY| + |a.z - m.lastAccelZ|) :=
    not_lt.mpr hmove
  rcases hs with ⟨hs, he⟩ | ⟨hs, he⟩ <;>
    simp [DoorMonitor.updateState, checkSensorHealth_valid m a t hv,
      recoverFromSensorFailure_eq, hs, calculateAccelChange, isMovementSignificant_iff, hns,
      DoorMonitor.noSignificantMovement, DoorMonitor.getTimeInCurrentState, hasTimedOut_iff,
      not_lt.mpr he, hstall, hwindow]

/-- C6 (witness). The run of `DetectsStall`: Opening since 1100, the sample
(10.52, 0.52) at 1200 and again at 5000 with `stallTimeout` 3000. -/
theorem C6_stall_while_moving_witness :
    ((openingMonitor.updateState (createAccelData 0 (1052 / 100) (52 / 100) true)
        1200).2.updateState (createAccelData 0 (1052 / 100) (52 / 100) true) 5000).1
        = DOOR_ERROR_STALLED ∧
      ((openingMonitor.updateState (createAccelData 0 (1052 / 100) (52 / 100) true)
        1200).2.updateState (createAccelData 0 (1052 / 100) (52 / 100) true)
        5000).2.currentState = DOOR_ERROR_STALLED ∧
      ((openingMonitor.updateState (createAccelData 0 (1052 / 100) (52 / 100) true)
        1200).2.updateState (createAccelData 0 (1052 / 100) (52 / 100) true)
        5000).2.stateChangeTime = 5000 :=
  C6_stall_while_moving
    (openingMonitor.updateState (createAccelData 0 (1052 / 100) (52 / 100) true) 1200).2
    (createAccelData 0 (1052 / 100) (52 / 100) true) 5000
    rfl (by decide!) (by decide!) (Or.inl (by decide!)) (by decide!)

/-- C7. In Opening, Closing or Unknown, for a valid sample without significant
movement on which neither the Timeout nor the Stalled condition fires: when
`t - lastMovementTime` is above `stopTimeout` the call returns Closed if the
sample is within tolerance of the closed reference, otherwise Open if it is
within tolerance of the open reference, otherwise Stopped, and sets the
state-change timestamp to `t`; when it is not above `stopTimeout` the state is
unchanged. -/
theorem C7_stop_resolution (m : DoorMonitor) (a : AccelData) (t : Nat)
    (hs : m.currentState = DOOR_OPENING ∨ m.currentState = DOOR_CLOSING ∨
      m.currentState = DOOR_UNKNOWN)
    (hv : a.valid = true)
    (hmove : |a.y - m.lastAccelY| + |a.z - m.lastAccelZ| ≤ m.config.accelThreshold)
    (hT : ¬ ((m.currentState = DOOR_OPENING ∧
          m.config.maxOpenTime < ulongSub t m.stateChangeTime) ∨
        (m.currentState = DOOR_CLOSING ∧
          m.config.maxCloseTime < ulongSub t m.stateChangeTime)))
    (hS : ¬ ((m.currentState = DOOR_OPENING ∨ m.currentState = DOOR_CLOSING) ∧
        |a.y - m.lastAccelY| + |a.z - m.lastAccelZ| < m.config.stallThreshold ∧
        m.config.stallTimeout < ulongSub t m.lastStallCheckTime)) :
    (m.config.stopTimeout < ulongSub t m.lastMovementTime →
        (m.updateState a t).1 =
          (if |a.y - m.config.closedPositionY| ≤ m.config.positionTolerance ∧
              |a.z - m.config.closedPositionZ| ≤ m.config.positionTolerance then DOOR_CLOSED
           else if |a.y - m.config.openPositionY| ≤ m.config.positionTolerance ∧
              |a.z - m.config.openPositionZ| ≤ m.config.positionTolerance then DOOR_OPEN
           else DOOR_STOPPED) ∧
        (m.updateState a t).2.currentState = (m.updateState a t).1 ∧
        (m.updateState a t).2.stateChangeTime = t) ∧
      (ulongSub t m.lastMovementTime ≤ m.config.stopTimeout →
        (m.updateState a t).1 = m.currentState ∧
        (m.updateState a t).2.currentState = m.currentState) := by
  have hns : ¬ (m.config.accelThreshold < |a.y - m.lastAccelY| + |a.z - m.lastAccelZ|) :=
    not_lt.mpr hmove
  have hne : m.currentState ≠ DOOR_ERROR_SENSOR_FAILURE := by
    rcases hs with hs | hs | hs <;> simp [hs]
  have hh := checkSensorHealth_valid m a t hv
  have hrec : ({ m with consecutiveSensorFailures := 0, sensorHealthy := true } :
      DoorMonitor).recoverFromSensorFailure t =
      { m with consecutiveSensorFailures := 0, sensorHealthy := true } := by
    simp [recoverFromSensorFailure_eq, hne]
  have hupd := updateState_of_no_movement m a t _ hh (by rw [hrec]; exact hns)
  rw [hrec] at hupd
  have hfst := updateState_fst m a t
  have key : (m.updateState a t).2.currentState =
      (if m.config.stopTimeout < ulongSub t m.lastMovementTime then
        (if |a.y - m.config.closedPositionY| ≤ m.config.positionTolerance ∧
            |a.z - m.config.closedPositionZ| ≤ m.config.positionTolerance then DOOR_CLOSED
         else if |a.y - m.config.openPositionY| ≤ m.config.positionTolerance ∧
            |a.z - m.config.openPositionZ| ≤ m.config.positionTolerance then DOOR_OPEN
         else DOOR_STOPPED)
       else m.currentState) ∧
      (m.config.stopTimeout < ulongSub t m.lastMovementTime →
        (m.updateState a t).2.stateChangeTime = t) := by
    have hnf := noSignificantMovement_of_no_fault
      ({ m with consecutiveSensorFailures := 0, sensorHealthy := true } : DoorMonitor)
      a.y a.z (|a.y - m.lastAccelY| + |a.z - m.lastAccelZ|) t hT hS
    rw [hupd, hnf.1, hnf.2, stopCheck_eq]
    by_cases hstop : m.config.stopTimeout < ulongSub t m.lastMovementTime
    · simp [hstop, hs]
    · simp [hstop]
  refine ⟨fun hstop => ?_, fun hstop => ?_⟩
  · refine ⟨?_, hfst.symm, key.2 hstop⟩
    rw [hfst, key.1, if_pos hstop]
  · have h2 : (m.updateState a t).2.currentState = m.currentState := by
      rw [key.1, if_neg (not_lt.mpr hstop)]
    exact ⟨hfst.trans h2, h2⟩

/-- C7 (witness). The run of `OpeningStopsAfterTimeout`: Opening since 1100, the
same sample at 4000 gives Stopped with the timestamp 4000; the same sample at
2000 leaves Opening. -/
theorem C7_stop_resolution_witness :
    ((openingMonitor.updateState (createAccelData 0 (105 / 10) (1 / 2) true) 4000).1
        = DOOR_STOPPED ∧
      (openingMonitor.updateState (createAccelData 0 (105 / 10) (1 / 2) true)
        4000).2.stateChangeTime = 4000) ∧
      (openingMonitor.updateState (createAccelData 0 (105 / 10) (1 / 2) true)
        2000).2.currentState = DOOR_OPENING := by
  have h1 := (C7_stop_resolution openingMonitor (createAccelData 0 (105 / 10) (1 / 2) true)
    4000 (Or.inl (by decide!)) rfl (by decide!) (by decide!) (by decide!)).1 (by decide!)
  have h2 := (C7_stop_resolution openingMonitor (createAccelData 0 (105 / 10) (1 / 2) true)
    2000 (Or.inl (by decide!)) rfl (by decide!) (by decide!) (by decide!)).2 (by decide!)
  refine ⟨⟨?_, h1.2.2⟩, ?_⟩
  · rw [h1.1]
    decide!
  · rw [h2.2]
    decide!

/-- C8. From every state, a valid sample whose y-change `y - lastY` or z-change
`z - lastZ` is above `accelThreshold` makes `updateState` return Opening and
record Opening as the last movement direction; when the state was Opening
already the state-change timestamp is kept. -/
theorem C8_axis_increase_gives_opening (m : DoorMonitor) (a : AccelData) (t : Nat)
    (hv : a.valid = true)
    (hup : m.config.accelThreshold < a.y - m.lastAccelY ∨
      m.config.accelThreshold < a.z - m.lastAccelZ) :
    (m.updateState a t).1 = DOOR_OPENING ∧
      (m.updateState a t).2.currentState = DOOR_OPENING ∧
      (m.updateState a t).2.lastMovementDirection = DOOR_OPENING ∧
      (m.currentState = DOOR_OPENING →
        (m.updateState a t).2.stateChangeTime = m.stateChangeTime) := by
  have hsig := total_gt_of_axis_gt _ _ _ hup
  have hdir := determineDirection_opening a.y m.lastAccelY a.z m.lastAccelZ
    m.config.accelThreshold hup
  have hh := checkSensorHealth_valid m a t hv
  have hupd := updateState_of_movement m a t _ hh
    (by simpa [recoverFromSensorFailure_eq] using hsig)
  have hfst := updateState_fst m a t
  have hcur : (m.updateState a t).2.currentState = DOOR_OPENING := by
    rw [hupd, significantMovement_eq, recoverFromSensorFailure_eq]
    simp [hdir]
  refine ⟨hfst.trans hcur, hcur, ?_, fun hs => ?_⟩
  · rw [hupd, significantMovement_eq, recoverFromSensorFailure_eq]
    simp [hdir]
  · rw [hupd, significantMovement_eq, recoverFromSensorFailure_eq]
    simp [hdir, hs]

/-- C8 (witness). The run of `DetectsOpeningMovement` from Closed, and the second
sample of `ContinuesOpeningWithSustainedMovement` from Opening, which keeps the
state-change timestamp 1100. -/
theorem C8_axis_increase_gives_opening_witness :
    (closedMonitor.updateState (createAccelData 0 (105 / 10) (1 / 2) true) 1100).1
        = DOOR_OPENING ∧
      (openingMonitor.updateState (createAccelData 0 (103 / 10) (15 / 10) true) 1200).1
        = DOOR_OPENING ∧
      (openingMonitor.updateState (createAccelData 0 (103 / 10) (15 / 10) true)
        1200).2.stateChangeTime = 1100 := by
  have h1 := C8_axis_increase_gives_opening closedMonitor
    (createAccelData 0 (105 / 10) (1 / 2) true) 1100 rfl (Or.inl (by decide!))
  have h2 := C8_axis_increase_gives_opening openingMonitor
    (createAccelData 0 (103 / 10) (15 / 10) true) 1200 rfl (Or.inr (by decide!))
  refine ⟨h1.1, h2.1, ?_⟩
  rw [h2.2.2.2 (by decide!)]
  decide!

/-- C9 (the code at the failing inputs). After `initialize(5.0, 5.0, 1000)` the
monitor is Stopped and the valid sample (6.0, 4.5), whose y goes up by 1.0 while
z goes down, is reported as Opening; after `initialize(0.0, 9.8, 1000)` the
monitor is Open and the valid sample (1.0, 8.5) is reported as Opening. The
tests `DetectsClosingViaYIncrease` and `ContinuesClosingWithSustainedMovement`
expect Closing. -/
theorem C9_y_increase_reported_as_opening :
    (stoppedMonitor.currentState = DOOR_STOPPED ∧
      (stoppedMonitor.updateState (createAccelData 0 6 (45 / 10) true) 1100).1
        = DOOR_OPENING) ∧
    (openMonitor.currentState = DOOR_OPEN ∧
      (openMonitor.updateState (createAccelData 0 1 (85 / 10) true) 1100).1
        = DOOR_OPENING) := by
  decide!

/-- C10 (counterexample). The monitor is Opening with last observed values
(10.5, 0.5); in the valid sample (9.5, 1.3) the y-axis has the larger absolute
change, -1.0, below minus the threshold 0.5, and the z-change 0.8 is above the
threshold: the call returns Opening, not Closing. -/
theorem C10_dominant_decrease_not_closing :
    openingMonitor.currentState = DOOR_OPENING ∧
      |(13 / 10 : ℚ) - openingMonitor.lastAccelZ| ≤ |(95 / 10 : ℚ) - openingMonitor.lastAccelY| ∧
      (95 / 10 : ℚ) - openingMonitor.lastAccelY < -openingMonitor.config.accelThreshold ∧
      (openingMonitor.updateState (createAccelData 0 (95 / 10) (13 / 10) true) 1200).1
        = DOOR_OPENING := by
  decide!

/-- C10 (amended). In Opening, a valid sample in which the axis with the larger
absolute change has a change below `-accelThreshold` and neither axis change is
above `+accelThreshold` makes `updateState` return Closing; in Closing, a valid
sample in which the axis with the larger absolute change has a change above
`+accelThreshold` makes it return Opening. In both cases the last movement
direction is the new state and the state-change timestamp is the call time. -/
theorem C10_direction_reversal (m : DoorMonitor) (a : AccelData) (t : Nat)
    (hv : a.valid = true) :
    (m.currentState = DOOR_OPENING →
      ((|a.z - m.lastAccelZ| ≤ |a.y - m.lastAccelY| ∧
          a.y - m.lastAccelY < -m.config.accelThreshold) ∨
        (|a.y - m.lastAccelY| ≤ |a.z - m.lastAccelZ| ∧
          a.z - m.lastAccelZ < -m.config.accelThreshold)) →
      ¬ m.config.accelThreshold < a.y - m.lastAccelY →
      ¬ m.config.accelThreshold < a.z - m.lastAccelZ →
      (m.updateState a t).1 = DOOR_CLOSING ∧
        (m.updateState a t).2.currentState = DOOR_CLOSING ∧
        (m.updateState a t).2.lastMovementDirection = DOOR_CLOSING ∧
        (m.updateState a t).2.stateChangeTime = t) ∧
    (m.currentState = DOOR_CLOSING →
      ((|a.z - m.lastAccelZ| ≤ |a.y - m.lastAccelY| ∧
          m.config.accelThreshold < a.y - m.lastAccelY) ∨
        (|a.y - m.lastAccelY| ≤ |a.z - m.lastAccelZ| ∧
          m.config.accelThreshold < a.z - m.lastAccelZ)) →
      (m.updateState a t).1 = DOOR_OPENING ∧
        (m.updateState a t).2.currentState = DOOR_OPENING ∧
        (m.updateState a t).2.lastMovementDirection = DOOR_OPENING ∧
        (m.updateState a t).2.stateChangeTime = t) := by
  have hh := checkSensorHealth_valid m a t hv
  have hfst := updateState_fst m a t
  refine ⟨fun hs hdom hny hnz => ?_, fun hs hdom => ?_⟩
  · have hdown : a.y - m.lastAccelY < -m.config.accelThreshold ∨
        a.z - m.lastAccelZ < -m.config.accelThreshold := by
      rcases hdom with h | h
      · exact Or.inl h.2
      · exact Or.inr h.2
    have hsig := total_gt_of_axis_lt_neg _ _ _ hdown
    have hdir := determineDirection_closing a.y m.lastAccelY a.z m.lastAccelZ
      m.config.accelThreshold (by rintro (h | h); exact hny h; exact hnz h) hdown
    have hupd := updateState_of_movement m a t _ hh
      (by simpa [recoverFromSensorFailure_eq] using hsig)
    have hcur : (m.updateState a t).2.currentState = DOOR_CLOSING := by
      rw [hupd, significantMovement_eq, recoverFromSensorFailure_eq]
      simp [hdir]
    refine ⟨hfst.trans hcur, hcur, ?_, ?_⟩
    · rw [hupd, significantMovement_eq, recoverFromSensorFailure_eq]
      simp [hdir]
    · rw [hupd, significantMovement_eq, recoverFromSensorFailure_eq]
      simp [hdir, hs]
  · have hup : m.config.accelThreshold < a.y - m.lastAccelY ∨
        m.config.accelThreshold < a.z - m.lastAccelZ := by
      rcases hdom with h | h
      · exact Or.inl h.2
      · exact Or.inr h.2
    have hsig := total_gt_of_axis_gt _ _ _ hup
    have hdir := determineDirection_opening a.y m.lastAccelY a.z m.lastAccelZ
      m.config.accelThreshold hup
    have hupd := updateState_of_movement m a t _ hh
      (by simpa [recoverFromSensorFailure_eq] using hsig)
    have hcur : (m.updateState a t).2.currentState = DOOR_OPENING := by
      rw [hupd, significantMovement_eq, recoverFromSensorFailure_eq]
      simp [hdir]
    refine ⟨hfst.trans hcur, hcur, ?_, ?_⟩
    · rw [hupd, significantMovement_eq, recoverFromSensorFailure_eq]
      simp [hdir]
    · rw [hupd, significantMovement_eq, recoverFromSensorFailure_eq]
      simp [hdir, hs]

/-- C10 (witness). From Opening with last values (10.5, 0.5) the sample
(9.5, 0.5) gives Closing at 1200; from Closing with last values (0.5, 8.5) the
sample (0.5, 9.5) gives Opening at 1200. -/
theorem C10_direction_reversal_witness :
    ((openingMonitor.updateState (createAccelData 0 (95 / 10) (1 / 2) true) 1200).1
        = DOOR_CLOSING ∧
      (openingMonitor.updateState (createAccelData 0 (95 / 10) (1 / 2) true)
        1200).2.stateChangeTime = 1200) ∧
    ((closingMonitor.updateState (createAccelData 0 (1 / 2) (95 / 10) true) 1200).1
        = DOOR_OPENING ∧
      (closingMonitor.updateState (createAccelData 0 (1 / 2) (95 / 10) true)
        1200).2.stateChangeTime = 1200) := by
  have h1 := (C10_direction_reversal openingMonitor
    (createAccelData 0 (95 / 10) (1 / 2) true) 1200 rfl).1 (by decide!)
    (Or.inl (by decide!)) (by decide!) (by decide!)
  have h2 := (C10_direction_reversal closingMonitor
    (createAccelData 0 (1 / 2) (95 / 10) true) 1200 rfl).2 (by decide!)
    (Or.inr (by decide!))
  exact ⟨⟨h1.1, h1.2.2.2⟩, ⟨h2.1, h2.2.2.2⟩⟩


/-! ## Further lemmas on the blocks -/

theorem noSignificantMovement_sensorHealthy (m : DoorMonitor) (y z c : ℚ) (t : Nat) :
    (m.noSignificantMovement y z c t).2.sensorHealthy = m.sensorHealthy := by
  simp only [DoorMonitor.noSignificantMovement]
  split_ifs <;> first | rfl | rw [stopCheck_eq]

/-- Every call with a valid sample clears the counter and sets the health flag. -/
theorem updateState_valid_health (m : DoorMonitor) (a : AccelData) (t : Nat)
    (hv : a.valid = true) :
    (m.updateState a t).2.consecutiveSensorFailures = 0 ∧
      (m.updateState a t).2.sensorHealthy = true := by
  have hh := checkSensorHealth_valid m a t hv
  by_cases hsig :
    ((({ m with consecutiveSensorFailures := 0, sensorHealthy := true } :
        DoorMonitor).recoverFromSensorFailure t).config.accelThreshold <
      |a.y - (({ m with consecutiveSensorFailures := 0, sensorHealthy := true } :
        DoorMonitor).recoverFromSensorFailure t).lastAccelY| +
      |a.z - (({ m with consecutiveSensorFailures := 0, sensorHealthy := true } :
        DoorMonitor).recoverFromSensorFailure t).lastAccelZ|)
  · rw [updateState_of_movement m a t _ hh hsig, significantMovement_eq,
      recoverFromSensorFailure_eq]
    exact ⟨rfl, rfl⟩
  · rw [updateState_of_no_movement m a t _ hh hsig, noSignificantMovement_counter,
      noSignificantMovement_sensorHealthy, recoverFromSensorFailure_eq]
    exact ⟨rfl, rfl⟩

/-- The state after a valid sample received in SensorFailure. -/
theorem updateState_recovery_state (m : DoorMonitor) (a : AccelData) (t : Nat)
    (hs : m.currentState = DOOR_ERROR_SENSOR_FAILURE) (hv : a.valid = true) :
    (m.updateState a t).2.currentState =
      (if m.config.accelThreshold < |a.y - m.lastAccelY| + |a.z - m.lastAccelZ| then
        determineDirection a.y m.lastAccelY a.z m.lastAccelZ m.config.accelThreshold
      else
        (({ m with
            currentState := DOOR_UNKNOWN
            stateChangeTime := t
            sensorHealthy := true
            consecutiveSensorFailures := 0 } : DoorMonitor).stopCheck a.y a.z t
          (ulongSub t m.lastMovementTime)).2.currentState) := by
  have hh := checkSensorHealth_valid m a t hv
  by_cases hsig : m.config.accelThreshold < |a.y - m.lastAccelY| + |a.z - m.lastAccelZ|
  · rw [updateState_of_movement m a t _ hh (by simpa [recoverFromSensorFailure_eq] using hsig),
      significantMovement_eq, recoverFromSensorFailure_eq]
    simp only [hs, hsig, true_and, if_true]
    split_ifs with hd
    · rfl
    · exact (not_not.mp hd).symm
  · rw [updateState_of_no_movement m a t _ hh
      (by simpa [recoverFromSensorFailure_eq] using hsig)]
    simp [recoverFromSensorFailure_eq, hs, hsig, DoorMonitor.noSignificantMovement]

/-- The x component of the sample is not read. -/
theorem updateState_createAccelData_x (m : DoorMonitor) (x y z : ℚ) (v : Bool) (t : Nat) :
    m.updateState (createAccelData x y z v) t = m.updateState (createAccelData 0 y z v) t :=
  rfl

/-- `runUpdates` on the empty sequence. -/
theorem runUpdates_nil (m : DoorMonitor) : runUpdates m [] = m := rfl

/-- `runUpdates` makes the first call and goes on from the object it leaves. -/
theorem runUpdates_cons (m : DoorMonitor) (a : AccelData) (t : Nat)
    (l : List (AccelData × Nat)) :
    runUpdates m ((a, t) :: l) = runUpdates (m.updateState a t).2 l := rfl

/-! ## The claims, continued -/

/-- C11 (the code at the failing input). The run of
`TransitionsFromOpeningToClosing`: the monitor is Opening with last observed
values (10.5, 0.5); in the valid sample (10.0, 0.2) both axes decrease and the
total change 0.8 is above the threshold 0.5, but neither axis alone decreases by
more than 0.5, so the direction is Unknown and the call returns Opening. The
test expects Closing. -/
theorem C11_both_axes_decrease_stays_opening :
    openingMonitor.currentState = DOOR_OPENING ∧
      (openingMonitor.lastAccelY = 105 / 10 ∧ openingMonitor.lastAccelZ = 1 / 2) ∧
      ((10 : ℚ) < openingMonitor.lastAccelY ∧ (2 / 10 : ℚ) < openingMonitor.lastAccelZ) ∧
      openingMonitor.config.accelThreshold <
        |(10 : ℚ) - openingMonitor.lastAccelY| + |(2 / 10 : ℚ) - openingMonitor.lastAccelZ| ∧
      determineDirection 10 openingMonitor.lastAccelY (2 / 10) openingMonitor.lastAccelZ
        openingMonitor.config.accelThreshold = DOOR_UNKNOWN ∧
      (openingMonitor.updateState (createAccelData 0 10 (2 / 10) true) 1200).1
        = DOOR_OPENING := by
  decide!

/-- C12. `reset` gives exactly the object that the constructor builds from the
same configuration: state Unknown, direction Unknown, last observed values zero,
the three timestamps zero, health true, counter 0, configuration kept; a newly
constructed monitor is in state Unknown. -/
theorem C12_reset_restores_construction_state (m : DoorMonitor) (cfg : DoorMonitorConfig) :
    m.reset = DoorMonitor.new m.config ∧
      m.reset.currentState = DOOR_UNKNOWN ∧
      m.reset.lastMovementDirection = DOOR_UNKNOWN ∧
      m.reset.lastAccelY = 0 ∧
      m.reset.lastAccelZ = 0 ∧
      m.reset.lastMovementTime = 0 ∧
      m.reset.stateChangeTime = 0 ∧
      m.reset.lastStallCheckTime = 0 ∧
      m.reset.sensorHealthy = true ∧
      m.reset.consecutiveSensorFailures = 0 ∧
      m.reset.config = m.config ∧
      (DoorMonitor.new cfg).currentState = DOOR_UNKNOWN ∧
      (DoorMonitor.new cfg).config = cfg :=
  ⟨rfl, rfl, rfl, rfl, rfl, rfl, rfl, rfl, rfl, rfl, rfl, rfl, rfl⟩

/-- C13. From SensorFailure, after `updateState` with a valid sample the health
flag is true and the current state is not SensorFailure. -/
theorem C13_valid_sample_leaves_sensor_failure (m : DoorMonitor) (a : AccelData) (t : Nat)
    (hs : m.currentState = DOOR_ERROR_SENSOR_FAILURE) (hv : a.valid = true) :
    (m.updateState a t).2.sensorHealthy = true ∧
      (m.updateState a t).2.currentState ≠ DOOR_ERROR_SENSOR_FAILURE := by
  refine ⟨(updateState_valid_health m a t hv).2, ?_⟩
  rw [updateState_recovery_state m a t hs hv]
  split_ifs with hsig
  · rcases determineDirection_cases a.y m.lastAccelY a.z m.lastAccelZ
      m.config.accelThreshold with h | h | h <;> rw [h] <;> decide
  · rw [stopCheck_eq]
    simp only
    split_ifs <;> decide

/-- C13 (witness). The run of `RecoverFromSensorFailure`: the valid sample
(9.8, 0.0) at 2000 after the five invalid ones. -/
theorem C13_valid_sample_leaves_sensor_failure_witness :
    (sensorFailureMonitor.updateState (createAccelData 0 (98 / 10) 0 true)
        2000).2.sensorHealthy = true ∧
      (sensorFailureMonitor.updateState (createAccelData 0 (98 / 10) 0 true)
        2000).2.currentState ≠ DOOR_ERROR_SENSOR_FAILURE :=
  C13_valid_sample_leaves_sensor_failure sensorFailureMonitor
    (createAccelData 0 (98 / 10) 0 true) 2000 (by decide!) rfl

/-- C14. The worked example of the specification: after `initialize(9.8, 0, 1000)`
the state is Closed; the sample (10.5, 0.5) at 1100 returns Opening; the same
sample at 4000 returns Stopped; then the invalid sample (0, 0) five times at
100 ms steps, from any start time, ends with the fifth call returning
SensorFailure. The x components, which the example leaves open, are arbitrary. -/
theorem C14_worked_example (x1 x2 x3 : ℚ) (t0 : Nat) :
    specExampleInitial.currentState = DOOR_CLOSED ∧
      (specExampleInitial.updateState (createAccelData x1 (105 / 10) (1 / 2) true) 1100).1
        = DOOR_OPENING ∧
      ((specExampleInitial.updateState (createAccelData x1 (105 / 10) (1 / 2) true)
          1100).2.updateState (createAccelData x2 (105 / 10) (1 / 2) true) 4000).1
        = DOOR_STOPPED ∧
      ((runUpdates (specExampleStopped x1 x2)
          [(createAccelData x3 0 0 false, t0), (createAccelData x3 0 0 false, t0 + 100),
            (createAccelData x3 0 0 false, t0 + 200),
            (createAccelData x3 0 0 false, t0 + 300)]).updateState
          (createAccelData x3 0 0 false) (t0 + 400)).1 = DOOR_ERROR_SENSOR_FAILURE := by
  refine ⟨by decide!, ?_, ?_, ?_⟩
  · rw [updateState_createAccelData_x]
    decide!
  · rw [updateState_createAccelData_x specExampleInitial, updateState_createAccelData_x]
    decide!
  · have hv : (createAccelData x3 0 0 false).valid = false := rfl
    have k0 : (specExampleStopped x1 x2).consecutiveSensorFailures = 0 := by
      rw [specExampleStopped, runUpdates_cons, runUpdates_cons, runUpdates_nil]
      exact (updateState_valid_health _ _ 4000 rfl).1
    have k1 := updateState_invalid_counter (specExampleStopped x1 x2) _ t0 hv
    have k2 := updateState_invalid_counter
      ((specExampleStopped x1 x2).updateState (createAccelData x3 0 0 false) t0).2 _
      (t0 + 100) hv
    have k3 := updateState_invalid_counter
      (((specExampleStopped x1 x2).updateState (createAccelData x3 0 0 false) t0).2.updateState
        (createAccelData x3 0 0 false) (t0 + 100)).2 _ (t0 + 200) hv
    have k4 := updateState_invalid_counter
      ((((specExampleStopped x1 x2).updateState (createAccelData x3 0 0 false)
        t0).2.updateState (createAccelData x3 0 0 false) (t0 + 100)).2.updateState
        (createAccelData x3 0 0 false) (t0 + 200)).2 _ (t0 + 300) hv
    refine (updateState_invalid_failure _ _ _ hv ?_).1
    rw [runUpdates_cons, runUpdates_cons, runUpdates_cons, runUpdates_cons, runUpdates_nil]
    omega

/-- C15. `determineDirection` equals the reference definition on every input:
it is Opening exactly when `dy > threshold` or `dz > threshold`, otherwise
Closing exactly when `dy < -threshold` or `dz < -threshold`, and Unknown exactly
when both `dy` and `dz` lie in `[-threshold, threshold]` (for every threshold, so
in particular for a non-negative one). -/
theorem C15_determineDirection_matches_reference (currentY previousY currentZ previousZ
    threshold : ℚ) :
    determineDirection currentY previousY currentZ previousZ threshold =
        determineDirectionSpec currentY previousY currentZ previousZ threshold ∧
      (determineDirection currentY previousY currentZ previousZ threshold = DOOR_OPENING ↔
        currentY - previousY > threshold ∨ currentZ - previousZ > threshold) ∧
      (determineDirection currentY previousY currentZ previousZ threshold = DOOR_CLOSING ↔
        ¬ (currentY - previousY > threshold ∨ currentZ - previousZ > threshold) ∧
          (currentY - previousY < -threshold ∨ currentZ - previousZ < -threshold)) ∧
      (determineDirection currentY previousY currentZ previousZ threshold = DOOR_UNKNOWN ↔
        (-threshold ≤ currentY - previousY ∧ currentY - previousY ≤ threshold) ∧
          (-threshold ≤ currentZ - previousZ ∧ currentZ - previousZ ≤ threshold)) := by
  simp only [determineDirection, determineDirectionSpec, gt_iff_lt]
  refine ⟨?_, ?_, ?_, ?_⟩
  · split_ifs <;> simp_all
  · split_ifs <;> simp_all
  · split_ifs <;> simp_all
  · split_ifs with h1 h2
    · simp only [false_iff, reduceCtorEq]
      rintro ⟨⟨_, hy⟩, ⟨_, hz⟩⟩
      rcases h1 with h | h
      · exact absurd h (not_lt.mpr hy)
      · exact absurd h (not_lt.mpr hz)
    · simp only [false_iff, reduceCtorEq]
      rintro ⟨⟨hy, _⟩, ⟨hz, _⟩⟩
      rcases h2 with h | h
      · exact absurd h (not_lt.mpr hy)
      · exact absurd h (not_lt.mpr hz)
    · simp only [true_iff]
      rw [not_or] at h1 h2
      exact ⟨⟨not_lt.mp h2.1, not_lt.mp h1.1⟩, ⟨not_lt.mp h2.2, not_lt.mp h1.2⟩⟩

/-- C16 (counterexample). With threshold 0.5, previous values (6, 5) and current
values (5, 6) the y-change is -1.0, below minus the threshold, and the z-change
is +1.0: the direction is Opening, not Closing. -/
theorem C16_decrease_with_increase_is_opening :
    (5 : ℚ) - 6 < -(1 / 2) ∧ determineDirection 5 6 6 5 (1 / 2) = DOOR_OPENING := by
  decide!

/-- C16 (amended). `determineDirection` returns Closing whenever the y-change or
the z-change is below `-threshold` and neither change is above `+threshold`;
either axis alone decreasing beyond the threshold is enough then. -/
theorem C16_closing_when_no_axis_increases (currentY previousY currentZ previousZ
    threshold : ℚ)
    (hdown : currentY - previousY < -threshold ∨ currentZ - previousZ < -threshold)
    (hy : ¬ currentY - previousY > threshold)
    (hz : ¬ currentZ - previousZ > threshold) :
    determineDirection currentY previousY currentZ previousZ threshold = DOOR_CLOSING := by
  simp only [determineDirection]
  rw [if_neg (by rintro (h | h); exact hy h; exact hz h), if_pos hdown]

/-- C16 (witness). The two calls of the test `DetermineDirectionClosing`: y alone
decreases from 6.0 to 5.0, and z alone decreases from 6.0 to 5.0. -/
theorem C16_closing_when_no_axis_increases_witness :
    determineDirection 5 6 5 5 (1 / 2) = DOOR_CLOSING ∧
      determineDirection 5 5 5 6 (1 / 2) = DOOR_CLOSING :=
  ⟨C16_closing_when_no_axis_increases 5 6 5 5 (1 / 2) (Or.inl (by decide!)) (by decide!)
      (by decide!),
    C16_closing_when_no_axis_increases 5 5 5 6 (1 / 2) (Or.inr (by decide!)) (by decide!)
      (by decide!)⟩

/-- C17. `hasTimedOut(elapsed, timeout)` is true exactly when `elapsed > timeout`;
`hasTimedOut(t, t)` is false for every `t`. -/
theorem C17_hasTimedOut_strict (elapsed timeout t : Nat) :
    (hasTimedOut elapsed timeout = true ↔ elapsed > timeout) ∧
      hasTimedOut t t = false := by
  simp [hasTimedOut]

/-- C18. `isInClosedPosition` and `isInOpenPosition` are each true exactly when
`|y - refY| <= tol` and `|z - refZ| <= tol`: a deviation equal to the tolerance
on an axis still matches when the other axis is within tolerance, and a
deviation above the tolerance on either axis alone does not match. -/
theorem C18_position_match_inclusive (y z refY refZ tol : ℚ) :
    (isInClosedPosition y z refY refZ tol = true ↔ |y - refY| ≤ tol ∧ |z - refZ| ≤ tol) ∧
      (isInOpenPosition y z refY refZ tol = true ↔ |y - refY| ≤ tol ∧ |z - refZ| ≤ tol) ∧
      ((|y - refY| = tol ∧ |z - refZ| ≤ tol) ∨ (|y - refY| ≤ tol ∧ |z - refZ| = tol) →
        isInClosedPosition y z refY refZ tol = true ∧
          isInOpenPosition y z refY refZ tol = true) ∧
      (tol < |y - refY| ∨ tol < |z - refZ| →
        isInClosedPosition y z refY refZ tol = false ∧
          isInOpenPosition y z refY refZ tol = false) := by
  refine ⟨isInClosedPosition_iff _ _ _ _ _, isInOpenPosition_iff _ _ _ _ _, ?_, ?_⟩
  · intro h
    have hin : |y - refY| ≤ tol ∧ |z - refZ| ≤ tol := by
      rcases h with ⟨h1, h2⟩ | ⟨h1, h2⟩
      · exact ⟨le_of_eq h1, h2⟩
      · exact ⟨h1, le_of_eq h2⟩
    exact ⟨(isInClosedPosition_iff _ _ _ _ _).mpr hin, (isInOpenPosition_iff _ _ _ _ _).mpr hin⟩
  · intro h
    have hout : ¬ (|y - refY| ≤ tol ∧ |z - refZ| ≤ tol) := by
      rintro ⟨h1, h2⟩
      rcases h with h | h
      · exact absurd h (not_lt.mpr h1)
      · exact absurd h (not_lt.mpr h2)
    constructor
    · rw [← Bool.not_eq_true, isInClosedPosition_iff]
      exact hout
    · rw [← Bool.not_eq_true, isInOpenPosition_iff]
      exact hout

/-- C18 (witness). With the closed reference (9.8, 0.0) and tolerance 0.5: the
point (9.3, 0.0), whose y deviation equals the tolerance, matches; the points
(10.5, 0.0) and (9.8, 1.0) of the test `IsInClosedPositionHelper`, off by more
than the tolerance on one axis alone, do not. -/
theorem C18_position_match_inclusive_witness :
    isInClosedPosition (93 / 10) 0 (98 / 10) 0 (1 / 2) = true ∧
      isInClosedPosition (105 / 10) 0 (98 / 10) 0 (1 / 2) = false ∧
      isInClosedPosition (98 / 10) 1 (98 / 10) 0 (1 / 2) = false :=
  ⟨((C18_position_match_inclusive (93 / 10) 0 (98 / 10) 0 (1 / 2)).2.2.1
      (Or.inl (by decide!))).1,
    ((C18_position_match_inclusive (105 / 10) 0 (98 / 10) 0 (1 / 2)).2.2.2
      (Or.inl (by decide!))).1,
    ((C18_position_match_inclusive (98 / 10) 1 (98 / 10) 0 (1 / 2)).2.2.2
      (Or.inr (by decide!))).1⟩

/-- C19. `isMovementSignificant(change, threshold)` is true exactly when
`change > threshold`; a change equal to the threshold is not significant. -/
theorem C19_isMovementSignificant_strict (accelChange threshold : ℚ) :
    (isMovementSignificant accelChange threshold = true ↔ accelChange > threshold) ∧
      isMovementSignificant threshold threshold = false := by
  simp [isMovementSignificant]

/-- C20. `getStateString` maps the nine states, in the order of the enumeration,
to CLOSED, OPEN, STOPPED, OPENING, CLOSING, UNKNOWN, ERROR_SENSOR_FAILURE,
ERROR_TIMEOUT and ERROR_STALLED; two monitors have the same tag exactly when they
have the same current state, so the tags are pairwise distinct and the tag
depends on the current state only. -/
theorem C20_getStateString_tags (m m1 m2 : DoorMonitor) :
    ({ m with currentState := DOOR_CLOSED } : DoorMonitor).getStateString = "CLOSED" ∧
      ({ m with currentState := DOOR_OPEN } : DoorMonitor).getStateString = "OPEN" ∧
      ({ m with currentState := DOOR_STOPPED } : DoorMonitor).getStateString = "STOPPED" ∧
      ({ m with currentState := DOOR_OPENING } : DoorMonitor).getStateString = "OPENING" ∧
      ({ m with currentState := DOOR_CLOSING } : DoorMonitor).getStateString = "CLOSING" ∧
      ({ m with currentState := DOOR_UNKNOWN } : DoorMonitor).getStateString = "UNKNOWN" ∧
      ({ m with currentState := DOOR_ERROR_SENSOR_FAILURE } : DoorMonitor).getStateString
        = "ERROR_SENSOR_FAILURE" ∧
      ({ m with currentState := DOOR_ERROR_TIMEOUT } : DoorMonitor).getStateString
        = "ERROR_TIMEOUT" ∧
      ({ m with currentState := DOOR_ERROR_STALLED } : DoorMonitor).getStateString
        = "ERROR_STALLED" ∧
      (m1.getStateString = m2.getStateString ↔ m1.currentState = m2.currentState) := by
  refine ⟨rfl, rfl, rfl, rfl, rfl, rfl, rfl, rfl, rfl, ?_, ?_⟩
  · intro h
    cases h1 : m1.currentState <;> cases h2 : m2.currentState <;>
      simp [DoorMonitor.getStateString, h1, h2] at h ⊢
  · intro h
    simp only [DoorMonitor.getStateString, h]


/-! ## Normal form of the branch without significant movement -/

/-- The branch without significant movement as a record update: Timeout first,
then Stalled, then the stop resolution. -/
theorem noSignificantMovement_eq (m : DoorMonitor) (y z c : ℚ) (t : Nat) :
    (m.noSignificantMovement y z c t).2 =
      { m with
        currentState :=
          if (m.currentState = DOOR_OPENING ∨ m.currentState = DOOR_CLOSING) ∧
              (if m.currentState = DOOR_OPENING then m.config.maxOpenTime
                else m.config.maxCloseTime) < ulongSub t m.stateChangeTime then
            DOOR_ERROR_TIMEOUT
          else if (m.currentState = DOOR_OPENING ∨ m.currentState = DOOR_CLOSING) ∧
              c < m.config.stallThreshold ∧
              m.config.stallTimeout < ulongSub t m.lastStallCheckTime then
            DOOR_ERROR_STALLED
          else if m.config.stopTimeout < ulongSub t m.lastMovementTime ∧
              (m.currentState = DOOR_OPENING ∨ m.currentState = DOOR_CLOSING ∨
                m.currentState = DOOR_UNKNOWN) then
            (if |y - m.config.closedPositionY| ≤ m.config.positionTolerance ∧
                |z - m.config.closedPositionZ| ≤ m.config.positionTolerance then DOOR_CLOSED
             else if |y - m.config.openPositionY| ≤ m.config.positionTolerance ∧
                |z - m.config.openPositionZ| ≤ m.config.positionTolerance then DOOR_OPEN
             else DOOR_STOPPED)
          else m.currentState
        stateChangeTime :=
          if ((m.currentState = DOOR_OPENING ∨ m.currentState = DOOR_CLOSING) ∧
                (if m.currentState = DOOR_OPENING then m.config.maxOpenTime
                  else m.config.maxCloseTime) < ulongSub t m.stateChangeTime) ∨
              ((m.currentState = DOOR_OPENING ∨ m.currentState = DOOR_CLOSING) ∧
                c < m.config.stallThreshold ∧
                m.config.stallTimeout < ulongSub t m.lastStallCheckTime) ∨
              (m.config.stopTimeout < ulongSub t m.lastMovementTime ∧
                (m.currentState = DOOR_OPENING ∨ m.currentState = DOOR_CLOSING ∨
                  m.currentState = DOOR_UNKNOWN)) then t
          else m.stateChangeTime
        lastStallCheckTime :=
          if (m.currentState = DOOR_OPENING ∨ m.currentState = DOOR_CLOSING) ∧
              ¬ (if m.currentState = DOOR_OPENING then m.config.maxOpenTime
                else m.config.maxCloseTime) < ulongSub t m.stateChangeTime ∧
              ¬ c < m.config.stallThreshold then t
          else m.lastStallCheckTime
        lastAccelY := y
        lastAccelZ := z } := by
  by_cases hmv : m.currentState = DOOR_OPENING ∨ m.currentState = DOOR_CLOSING
  · have hstopc : (m.currentState = DOOR_OPENING ∨ m.currentState = DOOR_CLOSING ∨
        m.currentState = DOOR_UNKNOWN) := by
      rcases hmv with h | h
      · exact Or.inl h
      · exact Or.inr (Or.inl h)
    by_cases hT : (if m.currentState = DOOR_OPENING then m.config.maxOpenTime
        else m.config.maxCloseTime) < ulongSub t m.stateChangeTime
    · simp only [DoorMonitor.noSignificantMovement, DoorMonitor.getTimeInCurrentState,
        hasTimedOut_iff, if_pos hmv, if_pos hT, hmv, hT, true_and, and_true, true_or,
        not_true_eq_false, false_and, and_false, if_true, if_false]
    · by_cases hst : c < m.config.stallThreshold
      · by_cases hS : m.config.stallTimeout < ulongSub t m.lastStallCheckTime
        · simp only [DoorMonitor.noSignificantMovement, DoorMonitor.getTimeInCurrentState,
            hasTimedOut_iff, if_pos hmv, if_neg hT, if_pos hst, if_pos hS, hmv, hT, hst, hS,
            true_and, and_true, true_or, or_true, not_true_eq_false, not_false_eq_true,
            false_and, and_false, false_or, if_true, if_false]
        · simp only [DoorMonitor.noSignificantMovement, DoorMonitor.getTimeInCurrentState,
            hasTimedOut_iff, if_pos hmv, if_neg hT, if_pos hst, if_neg hS, hmv, hT, hst, hS,
            hstopc, stopCheck_eq,
            true_and, and_true, true_or, or_true, not_true_eq_false, not_false_eq_true,
            false_and, and_false, false_or, if_true, if_false]
      · simp only [DoorMonitor.noSignificantMovement, DoorMonitor.getTimeInCurrentState,
          hasTimedOut_iff, if_pos hmv, if_neg hT, if_neg hst, hmv, hT, hst, hstopc,
          stopCheck_eq,
          true_and, and_true, true_or, or_true, not_true_eq_false, not_false_eq_true,
          false_and, and_false, false_or, if_true, if_false]
  · have hstopc : (m.currentState = DOOR_OPENING ∨ m.currentState = DOOR_CLOSING ∨
        m.currentState = DOOR_UNKNOWN) ↔ m.currentState = DOOR_UNKNOWN := by
      constructor
      · rintro (h | h | h)
        · exact absurd (Or.inl h) hmv
        · exact absurd (Or.inr h) hmv
        · exact h
      · exact fun h => Or.inr (Or.inr h)
    simp only [DoorMonitor.noSignificantMovement, if_neg hmv, hmv, stopCheck_eq, hstopc,
      false_and, and_false, false_or, if_false]


/-- The unsigned difference of a time with itself is zero. -/
theorem ulongSub_self (t : Nat) : ulongSub t t = 0 := by
  have h : t % ULONG_MODULUS < ULONG_MODULUS := Nat.mod_lt _ (by decide)
  simp only [ulongSub, ULONG_MODULUS] at *
  omega

/-- The object after a call that does not return at the sensor check, on
significant movement, written out field by field. -/
theorem updateState_movement_eq (m : DoorMonitor) (a : AccelData) (t : Nat) (c : Int)
    (h : Bool)
    (hh : m.checkSensorHealth a t =
      (false, { m with consecutiveSensorFailures := c, sensorHealthy := h }))
    (hsig : m.config.accelThreshold < |a.y - m.lastAccelY| + |a.z - m.lastAccelZ|) :
    (m.updateState a t).2 =
      { m with
        currentState :=
          if determineDirection a.y m.lastAccelY a.z m.lastAccelZ m.config.accelThreshold
              ≠ DOOR_UNKNOWN then
            determineDirection a.y m.lastAccelY a.z m.lastAccelZ m.config.accelThreshold
          else if m.currentState = DOOR_ERROR_SENSOR_FAILURE ∧ h = true then DOOR_UNKNOWN
          else m.currentState
        lastMovementDirection :=
          if determineDirection a.y m.lastAccelY a.z m.lastAccelZ m.config.accelThreshold
              ≠ DOOR_UNKNOWN then
            determineDirection a.y m.lastAccelY a.z m.lastAccelZ m.config.accelThreshold
          else m.lastMovementDirection
        stateChangeTime :=
          if determineDirection a.y m.lastAccelY a.z m.lastAccelZ m.config.accelThreshold
                ≠ DOOR_UNKNOWN ∧
              determineDirection a.y m.lastAccelY a.z m.lastAccelZ m.config.accelThreshold
                ≠ (if m.currentState = DOOR_ERROR_SENSOR_FAILURE ∧ h = true then DOOR_UNKNOWN
                  else m.currentState) then t
          else if m.currentState = DOOR_ERROR_SENSOR_FAILURE ∧ h = true then t
          else m.stateChangeTime
        lastMovementTime := t
        lastStallCheckTime := t
        lastAccelY := a.y
        lastAccelZ := a.z
        sensorHealthy := h
        consecutiveSensorFailures := c } := by
  rw [updateState_of_movement m a t _ hh (by simpa [recoverFromSensorFailure_eq] using hsig),
    significantMovement_eq, recoverFromSensorFailure_eq]

/-- The object after a call that does not return at the sensor check, without
significant movement: the branch without movement applied to the object after
the recovery check. -/
theorem updateState_no_movement_eq (m : DoorMonitor) (a : AccelData) (t : Nat) (c : Int)
    (h : Bool)
    (hh : m.checkSensorHealth a t =
      (false, { m with consecutiveSensorFailures := c, sensorHealthy := h }))
    (hsig : ¬ m.config.accelThreshold < |a.y - m.lastAccelY| + |a.z - m.lastAccelZ|) :
    (m.updateState a t).2 =
      (({ m with
          currentState :=
            if m.currentState = DOOR_ERROR_SENSOR_FAILURE ∧ h = true then DOOR_UNKNOWN
            else m.currentState
          stateChangeTime :=
            if m.currentState = DOOR_ERROR_SENSOR_FAILURE ∧ h = true then t
            else m.stateChangeTime
          sensorHealthy := h
          consecutiveSensorFailures := c } : DoorMonitor).noSignificantMovement a.y a.z
        (|a.y - m.lastAccelY| + |a.z - m.lastAccelZ|) t).2 := by
  rw [updateState_of_no_movement m a t _ hh
    (by simpa [recoverFromSensorFailure_eq] using hsig), recoverFromSensorFailure_eq]

/-! ## The claims, third part -/

/-- C21. `updateState` does not read the x component of the sample: two samples
that agree on y, z and valid give the same returned state and the same object,
whatever their x components. -/
theorem C21_x_component_not_read (m : DoorMonitor) (a1 a2 : AccelData) (t : Nat)
    (hy : a1.y = a2.y) (hz : a1.z = a2.z) (hv : a1.valid = a2.valid) :
    (m.updateState a1 t).1 = (m.updateState a2 t).1 ∧
      (m.updateState a1 t).2 = (m.updateState a2 t).2 := by
  have h : m.updateState a1 t = m.updateState a2 t := by
    simp only [DoorMonitor.updateState, DoorMonitor.checkSensorHealth, hy, hz, hv]
  rw [h]
  exact ⟨rfl, rfl⟩

/-- C21 (witness). From the Opening monitor of the tests, the sample (10.3, 1.5)
with x = 0 and with x = 7 gives the same result. -/
theorem C21_x_component_not_read_witness :
    (openingMonitor.updateState (createAccelData 0 (103 / 10) (15 / 10) true) 1200).1 =
        (openingMonitor.updateState (createAccelData 7 (103 / 10) (15 / 10) true) 1200).1 ∧
      (openingMonitor.updateState (createAccelData 0 (103 / 10) (15 / 10) true) 1200).2 =
        (openingMonitor.updateState (createAccelData 7 (103 / 10) (15 / 10) true) 1200).2 :=
  C21_x_component_not_read openingMonitor (createAccelData 0 (103 / 10) (15 / 10) true)
    (createAccelData 7 (103 / 10) (15 / 10) true) 1200 rfl rfl rfl

/-- C22. The state-change timestamp follows the state changes: when the call
leaves a current state other than the one before it, `stateChangeTime` is `t`
afterwards and `getTimeInCurrentState(t)` is 0; when the current state is the
one before the call, `stateChangeTime` is unchanged. -/
theorem C22_state_change_time_tracks_changes (m : DoorMonitor) (a : AccelData) (t : Nat) :
    ((m.updateState a t).2.currentState ≠ m.currentState →
        (m.updateState a t).2.stateChangeTime = t ∧
        (m.updateState a t).2.getTimeInCurrentState t = 0) ∧
      ((m.updateState a t).2.currentState = m.currentState →
        (m.updateState a t).2.stateChangeTime = m.stateChangeTime) := by
  have key : ((m.updateState a t).2.currentState ≠ m.currentState →
        (m.updateState a t).2.stateChangeTime = t) ∧
      ((m.updateState a t).2.currentState = m.currentState →
        (m.updateState a t).2.stateChangeTime = m.stateChangeTime) := by
    by_cases hf : a.valid = false ∧ m.consecutiveSensorFailures + 1 ≥ 5
    · rw [updateState_of_return m a t _ (checkSensorHealth_invalid_ge m a t hf.1 hf.2)]
      by_cases hs : m.currentState = DOOR_ERROR_SENSOR_FAILURE
      · simp [hs]
      · have hs' : ¬ DOOR_ERROR_SENSOR_FAILURE = m.currentState := fun h => hs h.symm
        simp [hs, hs']
    · obtain ⟨c, h, hh⟩ := checkSensorHealth_continue m a t hf
      by_cases hsig : m.config.accelThreshold < |a.y - m.lastAccelY| + |a.z - m.lastAccelZ|
      · rw [updateState_movement_eq m a t c h hh hsig]
        have hd := determineDirection_cases a.y m.lastAccelY a.z m.lastAccelZ
          m.config.accelThreshold
        generalize determineDirection a.y m.lastAccelY a.z m.lastAccelZ
          m.config.accelThreshold = d at hd ⊢
        rcases hd with rfl | rfl | rfl <;> cases hcs : m.currentState <;> cases h <;> simp
      · rw [updateState_no_movement_eq m a t c h hh hsig, noSignificantMovement_eq]
        cases hcs : m.currentState <;> cases h <;> simp <;> split_ifs <;> simp_all
  exact ⟨fun hne => ⟨key.1 hne, by
    rw [DoorMonitor.getTimeInCurrentState, key.1 hne, ulongSub_self]⟩, key.2⟩


/-- The direction is Unknown when both axis changes lie within the threshold. -/
theorem determineDirection_unknown (cy py cz pz th : ℚ)
    (hy : -th ≤ cy - py ∧ cy - py ≤ th) (hz : -th ≤ cz - pz ∧ cz - pz ≤ th) :
    determineDirection cy py cz pz th = DOOR_UNKNOWN := by
  simp only [determineDirection, gt_iff_lt]
  rw [if_neg, if_neg]
  · rintro (h | h)
    · exact absurd h (not_lt.mpr hy.1)
    · exact absurd h (not_lt.mpr hz.1)
  · rintro (h | h)
    · exact absurd h (not_lt.mpr hy.2)
    · exact absurd h (not_lt.mpr hz.2)

/-- C23. In Closed, Open, Stopped, Timeout or Stalled, a valid sample whose total
change is not above `accelThreshold` leaves the current state, the state-change
timestamp, the last-movement timestamp and the last movement direction
unchanged, at every time `t`. -/
theorem C23_resting_states_sticky (m : DoorMonitor) (a : AccelData) (t : Nat)
    (hs : m.currentState = DOOR_CLOSED ∨ m.currentState = DOOR_OPEN ∨
      m.currentState = DOOR_STOPPED ∨ m.currentState = DOOR_ERROR_TIMEOUT ∨
      m.currentState = DOOR_ERROR_STALLED)
    (hv : a.valid = true)
    (hmove : |a.y - m.lastAccelY| + |a.z - m.lastAccelZ| ≤ m.config.accelThreshold) :
    (m.updateState a t).1 = m.currentState ∧
      (m.updateState a t).2.currentState = m.currentState ∧
      (m.updateState a t).2.stateChangeTime = m.stateChangeTime ∧
      (m.updateState a t).2.lastMovementTime = m.lastMovementTime ∧
      (m.updateState a t).2.lastMovementDirection = m.lastMovementDirection := by
  have hh := checkSensorHealth_valid m a t hv
  rw [updateState_fst, updateState_no_movement_eq m a t 0 true hh (not_lt.mpr hmove),
    noSignificantMovement_eq]
  rcases hs with hs | hs | hs | hs | hs <;> simp [hs]

/-- C23 (witness). The run of `GetStateStringStopped`, at a time close to the end
of the 32-bit range: the Stopped monitor with last values (5, 5) and timestamps
1000 receives the same values at 4000000000 and stays as it is. -/
theorem C23_resting_states_sticky_witness :
    (stoppedMonitor.updateState (createAccelData 0 5 5 true) 4000000000).1 = DOOR_STOPPED ∧
      (stoppedMonitor.updateState (createAccelData 0 5 5 true) 4000000000).2.stateChangeTime
        = 1000 := by
  have h := C23_resting_states_sticky stoppedMonitor (createAccelData 0 5 5 true) 4000000000
    (Or.inr (Or.inr (Or.inl (by decide!)))) rfl (by decide!)
  refine ⟨?_, ?_⟩
  · rw [h.1]
    decide!
  · rw [h.2.2.1]
    decide!

/-- C24. In Opening or Closing, for a valid sample without significant movement:
when the time in state is above the applicable maximum the call returns Timeout,
whatever the stall window, the time since the last movement and the position;
when it is not, the total change is below `stallThreshold` and the stall window
is above `stallTimeout`, the call returns Stalled, whatever the time since the
last movement and the position. -/
theorem C24_fault_check_priority (m : DoorMonitor) (a : AccelData) (t : Nat)
    (hs : m.currentState = DOOR_OPENING ∨ m.currentState = DOOR_CLOSING)
    (hv : a.valid = true)
    (hmove : |a.y - m.lastAccelY| + |a.z - m.lastAccelZ| ≤ m.config.accelThreshold) :
    ((if m.currentState = DOOR_OPENING then m.config.maxOpenTime
          else m.config.maxCloseTime) < ulongSub t m.stateChangeTime →
        (m.updateState a t).1 = DOOR_ERROR_TIMEOUT ∧
        (m.updateState a t).2.currentState = DOOR_ERROR_TIMEOUT) ∧
      (ulongSub t m.stateChangeTime ≤
          (if m.currentState = DOOR_OPENING then m.config.maxOpenTime
            else m.config.maxCloseTime) →
        |a.y - m.lastAccelY| + |a.z - m.lastAccelZ| < m.config.stallThreshold →
        m.config.stallTimeout < ulongSub t m.lastStallCheckTime →
        (m.updateState a t).1 = DOOR_ERROR_STALLED ∧
        (m.updateState a t).2.currentState = DOOR_ERROR_STALLED) := by
  have hh := checkSensorHealth_valid m a t hv
  have hne : m.currentState ≠ DOOR_ERROR_SENSOR_FAILURE := by
    rcases hs with hs | hs <;> simp [hs]
  rw [updateState_fst, updateState_no_movement_eq m a t 0 true hh (not_lt.mpr hmove),
    noSignificantMovement_eq]
  refine ⟨fun hT => ?_, fun hT hst hS => ?_⟩
  · rcases hs with hs | hs <;> simp [hs] at hT ⊢ <;> simp [hT]
  · rcases hs with hs | hs <;> simp [hs] at hT ⊢ <;> simp [not_lt.mpr hT, hst, hS]


/-- C24 (witness). From Opening since 1100 with last values (10.5, 0.5), the same
values at 12000 exceed the maximum open time 10000, the stall timeout 3000 and
the stop timeout 2000 at once: the call returns Timeout. From Opening since 1100
with last values (0.2, 9.9), within tolerance of the open reference, the same
values at 5000 exceed the stall and the stop timeout: the call returns Stalled. -/
theorem C24_fault_check_priority_witness :
    (openingMonitor.config.stallTimeout < ulongSub 12000 openingMonitor.lastStallCheckTime ∧
      openingMonitor.config.stopTimeout < ulongSub 12000 openingMonitor.lastMovementTime ∧
      (openingMonitor.updateState (createAccelData 0 (105 / 10) (1 / 2) true) 12000).1
        = DOOR_ERROR_TIMEOUT) ∧
    (openingAtOpenMonitor.config.stopTimeout
        < ulongSub 5000 openingAtOpenMonitor.lastMovementTime ∧
      isInOpenPosition (2 / 10) (99 / 10) openingAtOpenMonitor.config.openPositionY
        openingAtOpenMonitor.config.openPositionZ
        openingAtOpenMonitor.config.positionTolerance = true ∧
      (openingAtOpenMonitor.updateState (createAccelData 0 (2 / 10) (99 / 10) true) 5000).1
        = DOOR_ERROR_STALLED) :=
  ⟨⟨by decide!, by decide!,
      ((C24_fault_check_priority openingMonitor (createAccelData 0 (105 / 10) (1 / 2) true)
        12000 (Or.inl (by decide!)) rfl (by decide!)).1 (by decide!)).1⟩,
    ⟨by decide!, by decide!,
      ((C24_fault_check_priority openingAtOpenMonitor
        (createAccelData 0 (2 / 10) (99 / 10) true) 5000 (Or.inl (by decide!)) rfl
        (by decide!)).2 (by decide!) (by decide!) (by decide!)).1⟩⟩

/-- C25. After a call that does not bring the invalid counter to 5 or more, the
last observed values are the y and z of the sample, on every path. When an
invalid sample brings the counter to 5 or more, the last observed values, the
last-movement timestamp, the stall-check timestamp and the last movement
direction are unchanged, and so is the state-change timestamp when the state was
SensorFailure already. -/
theorem C25_last_observed_values (m : DoorMonitor) (a : AccelData) (t : Nat) :
    (¬ (a.valid = false ∧ m.consecutiveSensorFailures + 1 ≥ 5) →
        (m.updateState a t).2.lastAccelY = a.y ∧ (m.updateState a t).2.lastAccelZ = a.z) ∧
      (a.valid = false ∧ m.consecutiveSensorFailures + 1 ≥ 5 →
        (m.updateState a t).2.lastAccelY = m.lastAccelY ∧
        (m.updateState a t).2.lastAccelZ = m.lastAccelZ ∧
        (m.updateState a t).2.lastMovementTime = m.lastMovementTime ∧
        (m.updateState a t).2.lastStallCheckTime = m.lastStallCheckTime ∧
        (m.updateState a t).2.lastMovementDirection = m.lastMovementDirection ∧
        (m.currentState = DOOR_ERROR_SENSOR_FAILURE →
          (m.updateState a t).2.stateChangeTime = m.stateChangeTime)) := by
  refine ⟨fun hf => ?_, fun hf => ?_⟩
  · obtain ⟨c, h, hh⟩ := checkSensorHealth_continue m a t hf
    by_cases hsig : m.config.accelThreshold < |a.y - m.lastAccelY| + |a.z - m.lastAccelZ|
    · rw [updateState_movement_eq m a t c h hh hsig]
      exact ⟨rfl, rfl⟩
    · rw [updateState_no_movement_eq m a t c h hh hsig, noSignificantMovement_eq]
      exact ⟨rfl, rfl⟩
  · rw [updateState_of_return m a t _ (checkSensorHealth_invalid_ge m a t hf.1 hf.2)]
    refine ⟨rfl, rfl, rfl, rfl, rfl, fun hs => ?_⟩
    simp [hs]

/-- C25 (witness). The Timeout return of `DetectsOpeningTimeout` stores the
sample (10.5, 0.5); the fifth invalid sample (0, 0) of `DetectsSensorFailure`
leaves the last observed values as they were. -/
theorem C25_last_observed_values_witness :
    (timeoutMonitor.lastAccelY = 105 / 10 ∧ timeoutMonitor.lastAccelZ = 1 / 2) ∧
      ((runUpdates closedMonitor
          [(invalidAccel, 1000), (invalidAccel, 1100), (invalidAccel, 1200),
            (invalidAccel, 1300)]).updateState invalidAccel 1400).2.lastAccelY =
        (runUpdates closedMonitor
          [(invalidAccel, 1000), (invalidAccel, 1100), (invalidAccel, 1200),
            (invalidAccel, 1300)]).lastAccelY :=
  ⟨(C25_last_observed_values openingMonitor (createAccelData 0 (105 / 10) (1 / 2) true)
      12000).1 (by decide!),
    ((C25_last_observed_values
      (runUpdates closedMonitor
        [(invalidAccel, 1000), (invalidAccel, 1100), (invalidAccel, 1200),
          (invalidAccel, 1300)]) invalidAccel 1400).2 ⟨rfl, by decide!⟩).1⟩

/-- C29. Outside SensorFailure and with a counter of at most 3 (so for 0..3), an
invalid sample is classified like the same sample marked valid: the call returns
the same state, and the object it leaves is the one the valid sample leaves
except for the counter, which is one more than before instead of 0, and the
health flag, which is kept instead of set. The current state, the last observed
values, the last movement direction and the three timestamps are the same. -/
theorem C29_invalid_sample_still_classified (m : DoorMonitor) (a : AccelData) (t : Nat)
    (hs : m.currentState ≠ DOOR_ERROR_SENSOR_FAILURE)
    (hc : m.consecutiveSensorFailures ≤ 3) (hv : a.valid = false) :
    (m.updateState a t).1 = (m.updateState { a with valid := true } t).1 ∧
      (m.updateState a t).2.currentState
        = (m.updateState { a with valid := true } t).2.currentState ∧
      (m.updateState a t).2 =
        { (m.updateState { a with valid := true } t).2 with
          consecutiveSensorFailures := m.consecutiveSensorFailures + 1
          sensorHealthy := m.sensorHealthy } := by
  have hh1 := checkSensorHealth_invalid_lt m a t hv (by omega)
  have hh2 := checkSensorHealth_valid m { a with valid := true } t rfl
  have key : (m.updateState a t).2 =
      { (m.updateState { a with valid := true } t).2 with
        consecutiveSensorFailures := m.consecutiveSensorFailures + 1
        sensorHealthy := m.sensorHealthy } := by
    by_cases hsig : m.config.accelThreshold < |a.y - m.lastAccelY| + |a.z - m.lastAccelZ|
    · rw [updateState_movement_eq m a t _ _ hh1 hsig,
        updateState_movement_eq m { a with valid := true } t _ _ hh2 hsig]
      simp [hs]
    · rw [updateState_no_movement_eq m a t _ _ hh1 hsig,
        updateState_no_movement_eq m { a with valid := true } t _ _ hh2 hsig,
        noSignificantMovement_eq, noSignificantMovement_eq]
      simp [hs]
  have hcur : (m.updateState a t).2.currentState
      = (m.updateState { a with valid := true } t).2.currentState := by
    rw [key]
  exact ⟨by rw [updateState_fst, updateState_fst, hcur], hcur, key⟩

/-- C29 (witness). A single invalid all-zero reading at 1000 moves the Closed
monitor of the tests, with last values (9.8, 0.0), to Closing, like the same
reading marked valid. -/
theorem C29_invalid_sample_still_classified_witness :
    closedMonitor.currentState = DOOR_CLOSED ∧
      (closedMonitor.updateState invalidAccel 1000).1 = DOOR_CLOSING ∧
      (closedMonitor.updateState { invalidAccel with valid := true } 1000).1
        = DOOR_CLOSING := by
  have h := C29_invalid_sample_still_classified closedMonitor invalidAccel 1000
    (by decide!) (by decide!) rfl
  refine ⟨by decide!, ?_, by decide!⟩
  rw [h.1]
  decide!

/-- C30. Outside SensorFailure, a valid sample whose total change is above
`accelThreshold` while both axis changes lie in `[-accelThreshold,
accelThreshold]` leaves the current state, the state-change timestamp and the
last movement direction unchanged and sets the last-movement and stall-check
timestamps to `t`; no Timeout, Stalled or stop resolution is raised, whatever
the elapsed times. -/
theorem C30_undirected_movement_freezes_state (m : DoorMonitor) (a : AccelData) (t : Nat)
    (hs : m.currentState ≠ DOOR_ERROR_SENSOR_FAILURE) (hv : a.valid = true)
    (hsig : m.config.accelThreshold < |a.y - m.lastAccelY| + |a.z - m.lastAccelZ|)
    (hy : -m.config.accelThreshold ≤ a.y - m.lastAccelY ∧
      a.y - m.lastAccelY ≤ m.config.accelThreshold)
    (hz : -m.config.accelThreshold ≤ a.z - m.lastAccelZ ∧
      a.z - m.lastAccelZ ≤ m.config.accelThreshold) :
    (m.updateState a t).1 = m.currentState ∧
      (m.updateState a t).2.currentState = m.currentState ∧
      (m.updateState a t).2.stateChangeTime = m.stateChangeTime ∧
      (m.updateState a t).2.lastMovementDirection = m.lastMovementDirection ∧
      (m.updateState a t).2.lastMovementTime = t ∧
      (m.updateState a t).2.lastStallCheckTime = t := by
  have hh := checkSensorHealth_valid m a t hv
  have hd := determineDirection_unknown a.y m.lastAccelY a.z m.lastAccelZ
    m.config.accelThreshold hy hz
  rw [updateState_fst, updateState_movement_eq m a t 0 true hh hsig]
  simp [hd, hs]

/-- C30 (witness). Opening since 1100 with last values (10.5, 0.5) and maximum
open time 10000: the sample (10.0, 0.2) at 50000 has the total change 0.8 and no
axis change beyond 0.5; the monitor stays Opening with its state-change
timestamp 1100, and the last-movement timestamp becomes 50000. -/
theorem C30_undirected_movement_freezes_state_witness :
    (openingMonitor.updateState (createAccelData 0 10 (2 / 10) true) 50000).1
        = DOOR_OPENING ∧
      (openingMonitor.updateState (createAccelData 0 10 (2 / 10) true)
        50000).2.stateChangeTime = 1100 ∧
      (openingMonitor.updateState (createAccelData 0 10 (2 / 10) true)
        50000).2.lastMovementTime = 50000 := by
  have h := C30_undirected_movement_freezes_state openingMonitor
    (createAccelData 0 10 (2 / 10) true) 50000 (by decide!) rfl (by decide!)
    ⟨by decide!, by decide!⟩ ⟨by decide!, by decide!⟩
  refine ⟨?_, ?_, h.2.2.2.2.1⟩
  · rw [h.1]
    decide!
  · rw [h.2.2.1]
    decide!


/-! ## Sequences of calls and reachable states -/

theorem run_nil (m : DoorMonitor) : m.run [] = m := rfl

theorem run_cons (m : DoorMonitor) (c : Call) (calls : List Call) :
    m.run (c :: calls) = (m.call c).run calls := rfl

/-- A property that every call preserves holds after every sequence of calls. -/
theorem run_preserves (P : DoorMonitor → Prop) (hcall : ∀ m c, P m → P (m.call c)) :
    ∀ (calls : List Call) (m : DoorMonitor), P m → P (m.run calls) := by
  intro calls
  induction calls with
  | nil => intro m hm; exact hm
  | cons c rest ih => intro m hm; rw [run_cons]; exact ih _ (hcall m c hm)

/-- A property of the constructed object that every call preserves holds in
every reachable state. -/
theorem reachable_induction (P : DoorMonitor → Prop) (hnew : ∀ cfg, P (DoorMonitor.new cfg))
    (hcall : ∀ m c, P m → P (m.call c)) (m : DoorMonitor) (h : Reachable m) : P m := by
  obtain ⟨cfg, calls, rfl⟩ := h
  exact run_preserves P hcall calls _ (hnew cfg)

/-- A call that goes on past the sensor check does not end in SensorFailure when
the object was not in SensorFailure or the health flag after the check is set;
it leaves the counter and the health flag of the check. -/
theorem updateState_continue_fields (m : DoorMonitor) (a : AccelData) (t : Nat) (c : Int)
    (h : Bool)
    (hh : m.checkSensorHealth a t =
      (false, { m with consecutiveSensorFailures := c, sensorHealthy := h }))
    (hcond : m.currentState = DOOR_ERROR_SENSOR_FAILURE → h = true) :
    (m.updateState a t).2.currentState ≠ DOOR_ERROR_SENSOR_FAILURE ∧
      (m.updateState a t).2.sensorHealthy = h ∧
      (m.updateState a t).2.consecutiveSensorFailures = c := by
  by_cases hsig : m.config.accelThreshold < |a.y - m.lastAccelY| + |a.z - m.lastAccelZ|
  · rw [updateState_movement_eq m a t c h hh hsig]
    refine ⟨?_, rfl, rfl⟩
    have hd := determineDirection_cases a.y m.lastAccelY a.z m.lastAccelZ
      m.config.accelThreshold
    generalize determineDirection a.y m.lastAccelY a.z m.lastAccelZ
      m.config.accelThreshold = d at hd ⊢
    rcases hd with rfl | rfl | rfl <;> cases hcs : m.currentState <;> cases h <;>
      simp [hcs] at hcond ⊢
  · rw [updateState_no_movement_eq m a t c h hh hsig, noSignificantMovement_eq]
    refine ⟨?_, rfl, rfl⟩
    cases hcs : m.currentState <;> cases h <;> simp [hcs] at hcond ⊢ <;>
      split_ifs <;> simp

/-- The sensor-health invariant is kept by `updateState`. -/
theorem updateState_health_invariant (m : DoorMonitor) (a : AccelData) (t : Nat)
    (hI : (m.currentState = DOOR_ERROR_SENSOR_FAILURE ↔ m.sensorHealthy = false) ∧
      (m.sensorHealthy = false ↔ 5 ≤ m.consecutiveSensorFailures)) :
    ((m.updateState a t).2.currentState = DOOR_ERROR_SENSOR_FAILURE ↔
        (m.updateState a t).2.sensorHealthy = false) ∧
      ((m.updateState a t).2.sensorHealthy = false ↔
        5 ≤ (m.updateState a t).2.consecutiveSensorFailures) := by
  cases hv : a.valid
  · by_cases hc : 5 ≤ m.consecutiveSensorFailures + 1
    · rw [updateState_of_return m a t _ (checkSensorHealth_invalid_ge m a t hv hc)]
      simp [hc]
    · have hlt : ¬ 5 ≤ m.consecutiveSensorFailures := by omega
      have hhealthy : m.sensorHealthy = true := by
        cases hb : m.sensorHealthy
        · exact absurd (hI.2.mp hb) hlt
        · rfl
      have hns : m.currentState ≠ DOOR_ERROR_SENSOR_FAILURE := by
        intro hs
        have := hI.1.mp hs
        rw [hhealthy] at this
        exact Bool.noConfusion this
      obtain ⟨h1, h2, h3⟩ := updateState_continue_fields m a t _ _
        (checkSensorHealth_invalid_lt m a t hv (not_le.mp hc)) (fun hs => absurd hs hns)
      rw [h2, h3, hhealthy]
      simp [h1, hc]
  · obtain ⟨h1, h2, h3⟩ := updateState_continue_fields m a t _ _
      (checkSensorHealth_valid m a t hv) (fun _ => rfl)
    rw [h2, h3]
    simp [h1]

/-- The sensor-health invariant is kept by every call. -/
theorem call_health_invariant (m : DoorMonitor) (c : Call)
    (hI : (m.currentState = DOOR_ERROR_SENSOR_FAILURE ↔ m.sensorHealthy = false) ∧
      (m.sensorHealthy = false ↔ 5 ≤ m.consecutiveSensorFailures)) :
    ((m.call c).currentState = DOOR_ERROR_SENSOR_FAILURE ↔
        (m.call c).sensorHealthy = false) ∧
      ((m.call c).sensorHealthy = false ↔ 5 ≤ (m.call c).consecutiveSensorFailures) := by
  cases c with
  | doInitialize y z t =>
    simp only [DoorMonitor.call, DoorMonitor.initialize]
    split_ifs <;> simp
  | doReset => simp [DoorMonitor.call, DoorMonitor.reset]
  | doSetConfig cfg => exact hI
  | doUpdateState accel t => exact updateState_health_invariant m accel t hI

/-- C26. In every state reachable from construction by `initialize`, `reset`,
`setConfig` and `updateState` calls, the current state is SensorFailure exactly
when the health flag is false, and exactly when the invalid counter is at least
5. -/
theorem C26_sensor_failure_invariant (m : DoorMonitor) (h : Reachable m) :
    (m.currentState = DOOR_ERROR_SENSOR_FAILURE ↔ m.sensorHealthy = false) ∧
      (m.sensorHealthy = false ↔ m.consecutiveSensorFailures ≥ 5) ∧
      (m.currentState = DOOR_ERROR_SENSOR_FAILURE ↔ m.consecutiveSensorFailures ≥ 5) := by
  have key := reachable_induction
    (fun s => (s.currentState = DOOR_ERROR_SENSOR_FAILURE ↔ s.sensorHealthy = false) ∧
      (s.sensorHealthy = false ↔ 5 ≤ s.consecutiveSensorFailures))
    (fun cfg => by simp [DoorMonitor.new])
    (fun s c hs => call_health_invariant s c hs) m h
  exact ⟨key.1, key.2, key.1.trans key.2⟩

/-- C26 (witness). The state after the calls of `DetectsSensorFailure` is
reachable: it is SensorFailure, its health flag is false and its counter is 5. -/
theorem C26_sensor_failure_invariant_witness :
    ((DoorMonitor.new testConfig).run sensorFailureCalls).currentState
        = DOOR_ERROR_SENSOR_FAILURE ∧
      ((DoorMonitor.new testConfig).run sensorFailureCalls).sensorHealthy = false ∧
      ((DoorMonitor.new testConfig).run sensorFailureCalls).consecutiveSensorFailures ≥ 5 := by
  have h := C26_sensor_failure_invariant ((DoorMonitor.new testConfig).run sensorFailureCalls)
    ⟨testConfig, sensorFailureCalls, rfl⟩
  have hs : ((DoorMonitor.new testConfig).run sensorFailureCalls).currentState
      = DOOR_ERROR_SENSOR_FAILURE := by decide!
  exact ⟨hs, h.1.mp hs, h.2.2.mp hs⟩


/-- The invariant on the last movement direction is kept by `updateState`, and a
call that ends in Timeout or Stalled either raises the fault from Opening or
Closing, recording that state as the direction, or finds the fault already
raised and keeps the recorded direction. -/
theorem updateState_direction_invariant (m : DoorMonitor) (a : AccelData) (t : Nat)
    (hI : (m.lastMovementDirection = DOOR_OPENING ∨ m.lastMovementDirection = DOOR_CLOSING ∨
        m.lastMovementDirection = DOOR_UNKNOWN) ∧
      (m.currentState = DOOR_OPENING ∨ m.currentState = DOOR_CLOSING →
        m.lastMovementDirection = m.currentState) ∧
      (m.currentState = DOOR_ERROR_TIMEOUT ∨ m.currentState = DOOR_ERROR_STALLED →
        m.lastMovementDirection = DOOR_OPENING ∨ m.lastMovementDirection = DOOR_CLOSING)) :
    ((m.updateState a t).2.lastMovementDirection = DOOR_OPENING ∨
        (m.updateState a t).2.lastMovementDirection = DOOR_CLOSING ∨
        (m.updateState a t).2.lastMovementDirection = DOOR_UNKNOWN) ∧
      ((m.updateState a t).2.currentState = DOOR_OPENING ∨
          (m.updateState a t).2.currentState = DOOR_CLOSING →
        (m.updateState a t).2.lastMovementDirection = (m.updateState a t).2.currentState) ∧
      ((m.updateState a t).2.currentState = DOOR_ERROR_TIMEOUT ∨
          (m.updateState a t).2.currentState = DOOR_ERROR_STALLED →
        (m.updateState a t).2.lastMovementDirection = DOOR_OPENING ∨
          (m.updateState a t).2.lastMovementDirection = DOOR_CLOSING) ∧
      ((m.updateState a t).2.currentState = DOOR_ERROR_TIMEOUT ∨
          (m.updateState a t).2.currentState = DOOR_ERROR_STALLED →
        ((m.currentState = DOOR_OPENING ∨ m.currentState = DOOR_CLOSING) ∧
            (m.updateState a t).2.lastMovementDirection = m.currentState) ∨
          ((m.updateState a t).2.currentState = m.currentState ∧
            (m.updateState a t).2.lastMovementDirection = m.lastMovementDirection)) := by
  obtain ⟨h1, h2, h3⟩ := hI
  by_cases hf : a.valid = false ∧ m.consecutiveSensorFailures + 1 ≥ 5
  · rw [updateState_of_return m a t _ (checkSensorHealth_invalid_ge m a t hf.1 hf.2)]
    simp [h1]
  · obtain ⟨c, h, hh⟩ := checkSensorHealth_continue m a t hf
    by_cases hsig : m.config.accelThreshold < |a.y - m.lastAccelY| + |a.z - m.lastAccelZ|
    · rw [updateState_movement_eq m a t c h hh hsig]
      have hd := determineDirection_cases a.y m.lastAccelY a.z m.lastAccelZ
        m.config.accelThreshold
      generalize determineDirection a.y m.lastAccelY a.z m.lastAccelZ
        m.config.accelThreshold = d at hd ⊢
      rcases hd with rfl | rfl | rfl <;> cases hcs : m.currentState <;> cases h <;>
        rcases h1 with hl | hl | hl <;> simp [hcs, hl] at h2 h3 ⊢
    · rw [updateState_no_movement_eq m a t c h hh hsig, noSignificantMovement_eq]
      cases hcs : m.currentState <;> cases h <;> rcases h1 with hl | hl | hl <;>
        simp [hcs, hl] at h2 h3 ⊢ <;> split_ifs <;> simp

/-- The invariant on the last movement direction is kept by every call. -/
theorem call_direction_invariant (m : DoorMonitor) (c : Call)
    (hI : (m.lastMovementDirection = DOOR_OPENING ∨ m.lastMovementDirection = DOOR_CLOSING ∨
        m.lastMovementDirection = DOOR_UNKNOWN) ∧
      (m.currentState = DOOR_OPENING ∨ m.currentState = DOOR_CLOSING →
        m.lastMovementDirection = m.currentState) ∧
      (m.currentState = DOOR_ERROR_TIMEOUT ∨ m.currentState = DOOR_ERROR_STALLED →
        m.lastMovementDirection = DOOR_OPENING ∨ m.lastMovementDirection = DOOR_CLOSING)) :
    ((m.call c).lastMovementDirection = DOOR_OPENING ∨
        (m.call c).lastMovementDirection = DOOR_CLOSING ∨
        (m.call c).lastMovementDirection = DOOR_UNKNOWN) ∧
      ((m.call c).currentState = DOOR_OPENING ∨ (m.call c).currentState = DOOR_CLOSING →
        (m.call c).lastMovementDirection = (m.call c).currentState) ∧
      ((m.call c).currentState = DOOR_ERROR_TIMEOUT ∨
          (m.call c).currentState = DOOR_ERROR_STALLED →
        (m.call c).lastMovementDirection = DOOR_OPENING ∨
          (m.call c).lastMovementDirection = DOOR_CLOSING) := by
  cases c with
  | doInitialize y z t =>
    simp only [DoorMonitor.call, DoorMonitor.initialize]
    split_ifs <;> simp [hI.1]
  | doReset => simp [DoorMonitor.call, DoorMonitor.reset]
  | doSetConfig cfg => exact hI
  | doUpdateState accel t =>
    have h := updateState_direction_invariant m accel t hI
    exact ⟨h.1, h.2.1, h.2.2.1⟩

/-- C27. In every reachable state the last movement direction is Opening,
Closing or Unknown; it equals the current state when that is Opening or Closing;
it is Opening or Closing when the current state is Timeout or Stalled. A call of
`updateState` that ends in Timeout or Stalled either raises the fault from
Opening or Closing and leaves that state as the direction, or finds the fault
raised and keeps the direction. So in Timeout and in Stalled `getDetailedStatus`
gives the opening text exactly for the direction Opening and the closing text
exactly for the direction Closing. -/
theorem C27_direction_invariant (m : DoorMonitor) (h : Reachable m) (a : AccelData)
    (t : Nat) :
    (m.lastMovementDirection = DOOR_OPENING ∨ m.lastMovementDirection = DOOR_CLOSING ∨
        m.lastMovementDirection = DOOR_UNKNOWN) ∧
      (m.currentState = DOOR_OPENING ∨ m.currentState = DOOR_CLOSING →
        m.lastMovementDirection = m.currentState) ∧
      (m.currentState = DOOR_ERROR_TIMEOUT ∨ m.currentState = DOOR_ERROR_STALLED →
        m.lastMovementDirection = DOOR_OPENING ∨ m.lastMovementDirection = DOOR_CLOSING) ∧
      ((m.updateState a t).2.currentState = DOOR_ERROR_TIMEOUT ∨
          (m.updateState a t).2.currentState = DOOR_ERROR_STALLED →
        ((m.currentState = DOOR_OPENING ∨ m.currentState = DOOR_CLOSING) ∧
            (m.updateState a t).2.lastMovementDirection = m.currentState) ∨
          ((m.updateState a t).2.currentState = m.currentState ∧
            (m.updateState a t).2.lastMovementDirection = m.lastMovementDirection)) ∧
      (m.currentState = DOOR_ERROR_TIMEOUT →
        (m.lastMovementDirection = DOOR_OPENING ∧
            m.getDetailedStatus = "ERROR: Door took too long to open (timeout)") ∨
          (m.lastMovementDirection = DOOR_CLOSING ∧
            m.getDetailedStatus = "ERROR: Door took too long to close (timeout)")) ∧
      (m.currentState = DOOR_ERROR_STALLED →
        (m.lastMovementDirection = DOOR_OPENING ∧
            m.getDetailedStatus = "ERROR: Door stalled while opening") ∨
          (m.lastMovementDirection = DOOR_CLOSING ∧
            m.getDetailedStatus = "ERROR: Door stalled while closing")) := by
  have key := reachable_induction
    (fun s => (s.lastMovementDirection = DOOR_OPENING ∨
        s.lastMovementDirection = DOOR_CLOSING ∨ s.lastMovementDirection = DOOR_UNKNOWN) ∧
      (s.currentState = DOOR_OPENING ∨ s.currentState = DOOR_CLOSING →
        s.lastMovementDirection = s.currentState) ∧
      (s.currentState = DOOR_ERROR_TIMEOUT ∨ s.currentState = DOOR_ERROR_STALLED →
        s.lastMovementDirection = DOOR_OPENING ∨ s.lastMovementDirection = DOOR_CLOSING))
    (fun cfg => by simp [DoorMonitor.new])
    (fun s c hs => call_direction_invariant s c hs) m h
  refine ⟨key.1, key.2.1, key.2.2, (updateState_direction_invariant m a t key).2.2.2,
    fun hs => ?_, fun hs => ?_⟩
  · rcases key.2.2 (Or.inl hs) with hl | hl
    · exact Or.inl ⟨hl, by simp [DoorMonitor.getDetailedStatus, hs, hl]⟩
    · exact Or.inr ⟨hl, by simp [DoorMonitor.getDetailedStatus, hs, hl]⟩
  · rcases key.2.2 (Or.inr hs) with hl | hl
    · exact Or.inl ⟨hl, by simp [DoorMonitor.getDetailedStatus, hs, hl]⟩
    · exact Or.inr ⟨hl, by simp [DoorMonitor.getDetailedStatus, hs, hl]⟩

/-- C27 (witness). The state after the calls of `DetectsOpeningTimeout` is
reachable and in Timeout; the fault was raised from Opening, the direction is
Opening and the detailed status is the opening text. -/
theorem C27_direction_invariant_witness :
    ((DoorMonitor.new testConfig).run openingTimeoutCalls).currentState
        = DOOR_ERROR_TIMEOUT ∧
      ((DoorMonitor.new testConfig).run openingTimeoutCalls).lastMovementDirection
        = DOOR_OPENING ∧
      ((DoorMonitor.new testConfig).run openingTimeoutCalls).getDetailedStatus
        = "ERROR: Door took too long to open (timeout)" := by
  have h := C27_direction_invariant ((DoorMonitor.new testConfig).run openingTimeoutCalls)
    ⟨testConfig, openingTimeoutCalls, rfl⟩ invalidAccel 0
  have hs : ((DoorMonitor.new testConfig).run openingTimeoutCalls).currentState
      = DOOR_ERROR_TIMEOUT := by decide!
  have hl : ((DoorMonitor.new testConfig).run openingTimeoutCalls).lastMovementDirection
      = DOOR_OPENING := by decide!
  refine ⟨hs, hl, ?_⟩
  rcases h.2.2.2.2.1 hs with h1 | h1
  · exact h1.2
  · rw [hl] at h1
    exact absurd h1.1 (by decide)


/-- A prefix of a sequence of calls with non-decreasing times has non-decreasing
times. -/
theorem timesNondecreasing_take :
    ∀ (calls : List Call) (n t0 : Nat), timesNondecreasing t0 calls →
      timesNondecreasing t0 (calls.take n) := by
  intro calls
  induction calls with
  | nil => intro n t0 h; simpa using h
  | cons c rest ih =>
    intro n t0 h
    cases n with
    | zero => simp [timesNondecreasing]
    | succ k =>
      cases c with
      | doInitialize y z t =>
        simp only [List.take_succ_cons, timesNondecreasing] at h ⊢
        exact ⟨h.1, h.2.1, ih k t h.2.2⟩
      | doReset =>
        simp only [List.take_succ_cons, timesNondecreasing] at h ⊢
        exact ih k t0 h
      | doSetConfig cfg =>
        simp only [List.take_succ_cons, timesNondecreasing] at h ⊢
        exact ih k t0 h
      | doUpdateState accel t =>
        simp only [List.take_succ_cons, timesNondecreasing] at h ⊢
        exact ⟨h.1, h.2.1, ih k t h.2.2⟩

/-- A call of `updateState` at a time not before the latest one keeps the order
of the timestamps. -/
theorem updateState_time_invariant (m : DoorMonitor) (a : AccelData) (t t0 : Nat)
    (hI : m.lastMovementTime ≤ m.lastStallCheckTime ∧ m.lastStallCheckTime ≤ t0 ∧
      m.stateChangeTime ≤ t0)
    (ht : t0 ≤ t) :
    (m.updateState a t).2.lastMovementTime ≤ (m.updateState a t).2.lastStallCheckTime ∧
      (m.updateState a t).2.lastStallCheckTime ≤ t ∧
      (m.updateState a t).2.stateChangeTime ≤ t := by
  obtain ⟨h1, h2, h3⟩ := hI
  by_cases hf : a.valid = false ∧ m.consecutiveSensorFailures + 1 ≥ 5
  · rw [updateState_of_return m a t _ (checkSensorHealth_invalid_ge m a t hf.1 hf.2)]
    refine ⟨h1, le_trans h2 ht, ?_⟩
    simp only
    split_ifs <;> omega
  · obtain ⟨c, h, hh⟩ := checkSensorHealth_continue m a t hf
    by_cases hsig : m.config.accelThreshold < |a.y - m.lastAccelY| + |a.z - m.lastAccelZ|
    · rw [updateState_movement_eq m a t c h hh hsig]
      refine ⟨le_refl t, le_refl t, ?_⟩
      simp only
      split_ifs <;> omega
    · rw [updateState_no_movement_eq m a t c h hh hsig, noSignificantMovement_eq]
      refine ⟨?_, ?_, ?_⟩ <;> simp only <;> split_ifs <;> omega

/-- After a sequence of calls with non-decreasing representable times, the
timestamps are ordered and bounded by the time of the last call. -/
theorem run_time_invariant :
    ∀ (calls : List Call) (m : DoorMonitor) (t0 : Nat), t0 < ULONG_MODULUS →
      (m.lastMovementTime ≤ m.lastStallCheckTime ∧ m.lastStallCheckTime ≤ t0 ∧
        m.stateChangeTime ≤ t0) →
      timesNondecreasing t0 calls →
      ((m.run calls).lastMovementTime ≤ (m.run calls).lastStallCheckTime ∧
        (m.run calls).lastStallCheckTime ≤ lastCallTime t0 calls ∧
        (m.run calls).stateChangeTime ≤ lastCallTime t0 calls) ∧
      lastCallTime t0 calls < ULONG_MODULUS := by
  intro calls
  induction calls with
  | nil => intro m t0 ht0 hI _; exact ⟨hI, ht0⟩
  | cons c rest ih =>
    intro m t0 ht0 hI hT
    cases c with
    | doInitialize y z t =>
      simp only [timesNondecreasing] at hT
      rw [run_cons]
      simp only [lastCallTime]
      refine ih _ t hT.2.1 ?_ hT.2.2
      simp only [DoorMonitor.call, DoorMonitor.initialize]
      split_ifs <;> exact ⟨le_refl t, le_refl t, le_refl t⟩
    | doReset =>
      simp only [timesNondecreasing] at hT
      rw [run_cons]
      simp only [lastCallTime]
      exact ih _ t0 ht0 ⟨le_refl 0, Nat.zero_le _, Nat.zero_le _⟩ hT
    | doSetConfig cfg =>
      simp only [timesNondecreasing] at hT
      rw [run_cons]
      simp only [lastCallTime]
      exact ih _ t0 ht0 hI hT
    | doUpdateState accel t =>
      simp only [timesNondecreasing] at hT
      rw [run_cons]
      simp only [lastCallTime]
      exact ih _ t hT.2.1 (updateState_time_invariant m accel t t0 hI hT.1) hT.2.2

/-- C28. For every sequence of `initialize`, `reset`, `setConfig` and
`updateState` calls from construction whose time arguments are representable and
do not decrease, after each of its calls (after the first `n` calls, for every
`n`) the timestamps satisfy `lastMovementTime <= lastStallCheckTime <= T` and
`stateChangeTime <= T`, where `T` is the time of the last call made. Hence for a
next call at a time `t` with `T <= t` the three unsigned subtractions of
`updateState` are the true differences and do not wrap, and the stall window
`t - lastStallCheckTime` is at most the time `t - lastMovementTime` since the
last movement. -/
theorem C28_timestamps_ordered (cfg : DoorMonitorConfig) (calls : List Call) (n : Nat)
    (m : DoorMonitor) (hm : m = (DoorMonitor.new cfg).run (calls.take n))
    (hT : timesNondecreasing 0 calls) :
    m.lastMovementTime ≤ m.lastStallCheckTime ∧
      m.lastStallCheckTime ≤ lastCallTime 0 (calls.take n) ∧
      m.stateChangeTime ≤ lastCallTime 0 (calls.take n) ∧
      ∀ t, lastCallTime 0 (calls.take n) ≤ t → t < ULONG_MODULUS →
        ulongSub t m.lastMovementTime = t - m.lastMovementTime ∧
        ulongSub t m.stateChangeTime = t - m.stateChangeTime ∧
        ulongSub t m.lastStallCheckTime = t - m.lastStallCheckTime ∧
        ulongSub t m.lastStallCheckTime ≤ ulongSub t m.lastMovementTime := by
  have key := run_time_invariant (calls.take n) (DoorMonitor.new cfg) 0 (by decide)
    ⟨le_refl _, le_refl _, le_refl _⟩ (timesNondecreasing_take calls n 0 hT)
  rw [← hm] at key
  obtain ⟨⟨h1, h2, h3⟩, _⟩ := key
  refine ⟨h1, h2, h3, fun t ht htM => ?_⟩
  have e1 := ulongSub_eq_sub t m.lastMovementTime (le_trans (le_trans h1 h2) ht) htM
  have e2 := ulongSub_eq_sub t m.stateChangeTime (le_trans h3 ht) htM
  have e3 := ulongSub_eq_sub t m.lastStallCheckTime (le_trans h2 ht) htM
  refine ⟨e1, e2, e3, ?_⟩
  rw [e1, e3]
  omega

/-- C28 (witness). The calls of `DetectsOpeningTimeout` have the times 1000, 1100
and 12000; after all three the last-movement and stall-check timestamps are 1100
and the state-change timestamp is 12000, and a next call at 13000 computes the
differences 11900 and 1000 without wrapping. -/
theorem C28_timestamps_ordered_witness :
    ((DoorMonitor.new testConfig).run openingTimeoutCalls).lastMovementTime ≤
        ((DoorMonitor.new testConfig).run openingTimeoutCalls).lastStallCheckTime ∧
      ((DoorMonitor.new testConfig).run openingTimeoutCalls).stateChangeTime ≤ 12000 ∧
      ulongSub 13000 ((DoorMonitor.new testConfig).run openingTimeoutCalls).lastMovementTime
        = 13000 - ((DoorMonitor.new testConfig).run openingTimeoutCalls).lastMovementTime := by
  have h := C28_timestamps_ordered testConfig openingTimeoutCalls 3
    ((DoorMonitor.new testConfig).run openingTimeoutCalls) rfl
    (by simp [openingTimeoutCalls, timesNondecreasing, ULONG_MODULUS])
  have hlast : lastCallTime 0 (openingTimeoutCalls.take 3) = 12000 := rfl
  rw [hlast] at h
  exact ⟨h.1, h.2.2.1, (h.2.2.2 13000 (by decide) (by decide)).1⟩


end GarageDoor
